import Mathlib

/-!
Shallow embedding of the per-resource reconciliation functions of the
terraform-provider-tencentcloud repository (CFS snapshot, MariaDB security
groups, VPN gateway, EIP, TSF application config resources and the DBbrain
security-audit-log-export-tasks data source).

Each Go CRUD function mutates a `*schema.ResourceData` in place, issues vendor
API calls (wrapped in `resource.Retry` loops whose eventual outcome we model as
a single environment-provided result), and returns an `error` or `nil`.  We
embed an operation as a pure function from an environment (the eventual
outcomes of the vendor API calls it may issue) and the incoming resource state
to an `OpOut`: the ordered list of vendor API actions issued, the resource
state after all in-place mutations (mutations persist even when an error is
returned, as in Go), and the returned error (`none` = nil error).
-/

namespace TencentCloudProvider

/-- The vendor API actions the embedded functions can issue, one constructor
per SDK call / service wrapper appearing in the sources. -/
inductive ApiCall where
  | createCfsSnapshot
  | describeCfsSnapshot
  | updateCfsSnapshotAttribute
  | deleteCfsSnapshot
  | modifyTags
  | describeResourceTags
  | associateSecurityGroups
  | describeMariadbSecurityGroup
  | modifyDBInstanceSecurityGroups
  | deleteMariadbSecurityGroups
  | createVpnGateway
  | describeVpnGateways
  | setVpnGatewaysRenewFlag
  | modifyVpnGatewayAttribute
  | resetVpnGatewayInternetMaxBandwidth
  | describeVpnConnections
  | deleteVpnGateway
  | allocateAddresses
  | describeAddresses
  | modifyAddressAttribute
  | modifyAddressesBandwidth
  | unassociateAddress
  | releaseAddresses
  | describeBandwidthPackages
  | createConfig
  | describeConfig
  | deleteConfig
  | describeSecurityAuditLogExportTasks
deriving DecidableEq, Repr

/-- Result of one embedded CRUD operation: the ordered trace of vendor API
calls it issued, the resource state after its in-place mutations, and the
returned error (`none` models a nil Go error). -/
structure OpOut (σ : Type) where
  calls : List ApiCall
  state : σ
  err : Option String
deriving DecidableEq, Repr

/-- `d.Set(k, p)` guarded by `if p != nil`: overwrite the attribute when the
remote field is non-nil, keep the old value otherwise. -/
def setIfSome (new old : Option α) : Option α :=
  match new with
  | some v => some v
  | none => old

/-- Modelled from the spec: the composite-identifier separator `FILED_SP`
(defined in a repository file outside `src/`); the spec and the import
documentation show composite identifiers of the form `part1#part2#part3`. -/
def FILED_SP : String := "#"

/-- Go's `strings.Split` restricted to a one-character separator, as a
structural recursion over the character list (so that concrete identifiers
evaluate inside the kernel): splitting the empty string yields one empty
part, and every occurrence of the separator starts a new part. -/
def splitChar (sep : Char) : List Char → List (List Char)
  | [] => [[]]
  | c :: rest =>
    let r := splitChar sep rest
    if c = sep then [] :: r
    else
      match r with
      | [] => [[c]]
      | h :: t => (c :: h) :: t

/-- `strings.Split(s, FILED_SP)`: split on the `#` separator. -/
def splitFiledSp (s : String) : List String :=
  (splitChar '#' s.data).map String.mk

/-! ## CFS snapshot resource (`resource_tc_cfs_snapshot.go`) -/

/-- Attribute set of the `tencentcloud_cfs_snapshot` resource: the schema
declares `file_system_id`, `snapshot_name`, `tags`, plus the identifier. -/
structure CfsSnapshotState where
  id : String
  file_system_id : Option String
  snapshot_name : Option String
  tags : Option (List (String × String))
deriving DecidableEq, Repr

/-- Remote snapshot object returned by `DescribeCfsSnapshotById`; the Go
struct fields are pointers, hence `Option`. `status` is dereferenced by the
delete poll message, so it is kept plain. -/
structure CfsSnapshotObj where
  fileSystemId : Option String
  snapshotName : Option String
  status : String
deriving DecidableEq, Repr

/-- Eventual outcomes of the API calls `resourceTencentCloudCfsSnapshotRead`
may issue. -/
structure CfsSnapshotReadEnv where
  describe : Except String (Option CfsSnapshotObj)
  describeTags : Except String (List (String × String))
deriving Repr

/-- `resourceTencentCloudCfsSnapshotRead`: describe by id; on absence clear
the identifier and return nil; otherwise set `file_system_id` and
`snapshot_name` when non-nil, then fetch and set `tags`. -/
def cfsSnapshotRead (env : CfsSnapshotReadEnv) (d : CfsSnapshotState) :
    OpOut CfsSnapshotState :=
  match env.describe with
  | .error e => ⟨[.describeCfsSnapshot], d, some e⟩
  | .ok none => ⟨[.describeCfsSnapshot], { d with id := "" }, none⟩
  | .ok (some snap) =>
    let d := { d with
      file_system_id := setIfSome snap.fileSystemId d.file_system_id,
      snapshot_name := setIfSome snap.snapshotName d.snapshot_name }
    match env.describeTags with
    | .error e => ⟨[.describeCfsSnapshot, .describeResourceTags], d, some e⟩
    | .ok tags =>
      ⟨[.describeCfsSnapshot, .describeResourceTags],
        { d with tags := some tags }, none⟩

/-- Eventual outcomes of the API calls `resourceTencentCloudCfsSnapshotCreate`
may issue: the create call (returning the new snapshot id), the
`WaitForState` poll to `available`, and the tag-assignment call. -/
structure CfsSnapshotCreateEnv where
  create : Except String String
  wait : Option String
  modifyTags : Option String
  read : CfsSnapshotReadEnv
deriving Repr

/-- `helper.GetTags(d, "tags")`: the configured tag map, empty when unset. -/
def CfsSnapshotState.getTags (d : CfsSnapshotState) : List (String × String) :=
  d.tags.getD []

/-- `resourceTencentCloudCfsSnapshotCreate`: create under retry, store the
assigned snapshot id, poll until `available`, assign tags when configured,
then Read. -/
def cfsSnapshotCreate (env : CfsSnapshotCreateEnv) (d : CfsSnapshotState) :
    OpOut CfsSnapshotState :=
  match env.create with
  | .error e => ⟨[.createCfsSnapshot], d, some e⟩
  | .ok snapshotId =>
    let d := { d with id := snapshotId }
    match env.wait with
    | some e => ⟨[.createCfsSnapshot, .describeCfsSnapshot], d, some e⟩
    | none =>
      if d.getTags.isEmpty then
        let r := cfsSnapshotRead env.read d
        ⟨[.createCfsSnapshot, .describeCfsSnapshot] ++ r.calls, r.state, r.err⟩
      else
        match env.modifyTags with
        | some e =>
          ⟨[.createCfsSnapshot, .describeCfsSnapshot, .modifyTags], d, some e⟩
        | none =>
          let r := cfsSnapshotRead env.read d
          ⟨[.createCfsSnapshot, .describeCfsSnapshot, .modifyTags] ++ r.calls,
            r.state, r.err⟩

/-- Which attributes `d.HasChange` reports changed for the CFS snapshot
update. -/
structure CfsSnapshotChanges where
  snapshot_name : Bool
  tags : Bool
deriving DecidableEq, Repr

/-- Eventual outcomes of the API calls `resourceTencentCloudCfsSnapshotUpdate`
may issue. -/
structure CfsSnapshotUpdateEnv where
  update : Except String Unit
  modifyTags : Option String
  read : CfsSnapshotReadEnv
deriving Repr

/-- `resourceTencentCloudCfsSnapshotUpdate`: issue
`UpdateCfsSnapshotAttribute` only when `snapshot_name` changed, then apply
tag changes, then Read. -/
def cfsSnapshotUpdate (env : CfsSnapshotUpdateEnv) (ch : CfsSnapshotChanges)
    (d : CfsSnapshotState) : OpOut CfsSnapshotState :=
  let step1 : List ApiCall × Option String :=
    if ch.snapshot_name then
      match env.update with
      | .error e => ([.updateCfsSnapshotAttribute], some e)
      | .ok _ => ([.updateCfsSnapshotAttribute], none)
    else ([], none)
  match step1 with
  | (cs, some e) => ⟨cs, d, some e⟩
  | (cs, none) =>
    if ch.tags then
      match env.modifyTags with
      | some e => ⟨cs ++ [.modifyTags], d, some e⟩
      | none =>
        let r := cfsSnapshotRead env.read d
        ⟨cs ++ [.modifyTags] ++ r.calls, r.state, r.err⟩
    else
      let r := cfsSnapshotRead env.read d
      ⟨cs ++ r.calls, r.state, r.err⟩

/-- Eventual outcomes of the API calls `resourceTencentCloudCfsSnapshotDelete`
may issue: the delete call and the final observation of the post-delete
describe poll (the retry loop succeeds only once the describe returns nil). -/
structure CfsSnapshotDeleteEnv where
  delete : Except String Unit
  finalDescribe : Except String (Option CfsSnapshotObj)
deriving Repr

/-- `resourceTencentCloudCfsSnapshotDelete`: delete by id, then poll the
describe until the snapshot is gone; a still-present snapshot makes the retry
loop end in the retryable "status is ..." error. -/
def cfsSnapshotDelete (env : CfsSnapshotDeleteEnv) (d : CfsSnapshotState) :
    OpOut CfsSnapshotState :=
  match env.delete with
  | .error e => ⟨[.deleteCfsSnapshot], d, some e⟩
  | .ok _ =>
    match env.finalDescribe with
    | .error e => ⟨[.deleteCfsSnapshot, .describeCfsSnapshot], d, some e⟩
    | .ok none => ⟨[.deleteCfsSnapshot, .describeCfsSnapshot], d, none⟩
    | .ok (some obj) =>
      ⟨[.deleteCfsSnapshot, .describeCfsSnapshot], d,
        some ("cfs snapshot status is " ++ obj.status ++ ", retry...")⟩

/-! ## MariaDB security groups resource
(`resource_tc_mariadb_security_groups.go`) -/

/-- Attribute set of the `tencentcloud_mariadb_security_groups` resource. -/
structure MariadbSecurityGroupsState where
  id : String
  instance_id : Option String
  security_group_id : Option String
  product : Option String
deriving DecidableEq, Repr

/-- Eventual outcome of `DescribeMariadbSecurityGroup`; the read only tests
the result for nil, so the object itself carries no data here. -/
structure MariadbSecurityGroupsReadEnv where
  describe : Except String (Option Unit)
deriving Repr

/-- `resourceTencentCloudMariadbSecurityGroupsRead`: reject identifiers that
do not split into exactly three `#`-separated parts before any API call; on a
nil describe result clear the identifier and return a does-not-exist error;
otherwise set the three attributes from the identifier parts. -/
def mariadbSecurityGroupsRead (env : MariadbSecurityGroupsReadEnv)
    (d : MariadbSecurityGroupsState) : OpOut MariadbSecurityGroupsState :=
  let idSplit := splitFiledSp d.id
  if idSplit.length ≠ 3 then
    ⟨[], d, some ("id is broken," ++ d.id)⟩
  else
    let instanceId := idSplit.getD 0 ""
    let securityGroupId := idSplit.getD 1 ""
    let product := idSplit.getD 2 ""
    match env.describe with
    | .error e => ⟨[.describeMariadbSecurityGroup], d, some e⟩
    | .ok none =>
      ⟨[.describeMariadbSecurityGroup], { d with id := "" },
        some ("resource `securityGroups` " ++ securityGroupId ++
          " does not exist")⟩
    | .ok (some _) =>
      ⟨[.describeMariadbSecurityGroup],
        { d with
          instance_id := some instanceId,
          security_group_id := some securityGroupId,
          product := some product }, none⟩

/-- Eventual outcomes of the API calls
`resourceTencentCloudMariadbSecurityGroupsCreate` may issue. -/
structure MariadbSecurityGroupsCreateEnv where
  associate : Except String Unit
  read : MariadbSecurityGroupsReadEnv
deriving Repr

/-- `resourceTencentCloudMariadbSecurityGroupsCreate`: associate the security
group under retry, then store the composite identifier
`instanceId#securityGroupId#product` and Read. -/
def mariadbSecurityGroupsCreate (env : MariadbSecurityGroupsCreateEnv)
    (d : MariadbSecurityGroupsState) : OpOut MariadbSecurityGroupsState :=
  let instanceId := d.instance_id.getD ""
  let securityGroupId := d.security_group_id.getD ""
  let product := d.product.getD ""
  match env.associate with
  | .error e => ⟨[.associateSecurityGroups], d, some e⟩
  | .ok _ =>
    let d := { d with
      id := instanceId ++ FILED_SP ++ securityGroupId ++ FILED_SP ++ product }
    let r := mariadbSecurityGroupsRead env.read d
    ⟨[.associateSecurityGroups] ++ r.calls, r.state, r.err⟩

/-- Which attributes `d.HasChange` reports changed for the MariaDB
security-groups update. -/
structure MariadbSecurityGroupsChanges where
  instance_id : Bool
  security_group_id : Bool
  product : Bool
deriving DecidableEq, Repr

/-- Eventual outcomes of the API calls
`resourceTencentCloudMariadbSecurityGroupsUpdate` may issue. -/
structure MariadbSecurityGroupsUpdateEnv where
  modify : Except String Unit
  read : MariadbSecurityGroupsReadEnv
deriving Repr

/-- `resourceTencentCloudMariadbSecurityGroupsUpdate`: reject broken
identifiers, then fail on any changed attribute (all three are immutable)
before the modify call, then issue `ModifyDBInstanceSecurityGroups` and
Read. -/
def mariadbSecurityGroupsUpdate (env : MariadbSecurityGroupsUpdateEnv)
    (ch : MariadbSecurityGroupsChanges) (d : MariadbSecurityGroupsState) :
    OpOut MariadbSecurityGroupsState :=
  let idSplit := splitFiledSp d.id
  if idSplit.length ≠ 3 then
    ⟨[], d, some ("id is broken," ++ d.id)⟩
  else if ch.instance_id then
    ⟨[], d, some "`instance_id` do not support change now."⟩
  else if ch.security_group_id then
    ⟨[], d, some "`security_group_id` do not support change now."⟩
  else if ch.product then
    ⟨[], d, some "`product` do not support change now."⟩
  else
    match env.modify with
    | .error e => ⟨[.modifyDBInstanceSecurityGroups], d, some e⟩
    | .ok _ =>
      let r := mariadbSecurityGroupsRead env.read d
      ⟨[.modifyDBInstanceSecurityGroups] ++ r.calls, r.state, r.err⟩

/-- Eventual outcome of the API call
`resourceTencentCloudMariadbSecurityGroupsDelete` may issue. -/
structure MariadbSecurityGroupsDeleteEnv where
  delete : Except String Unit
deriving Repr

/-- `resourceTencentCloudMariadbSecurityGroupsDelete`: reject broken
identifiers, then issue the delete call and return; there is no post-delete
poll. -/
def mariadbSecurityGroupsDelete (env : MariadbSecurityGroupsDeleteEnv)
    (d : MariadbSecurityGroupsState) : OpOut MariadbSecurityGroupsState :=
  let idSplit := splitFiledSp d.id
  if idSplit.length ≠ 3 then
    ⟨[], d, some ("id is broken," ++ d.id)⟩
  else
    match env.delete with
    | .error e => ⟨[.deleteMariadbSecurityGroups], d, some e⟩
    | .ok _ => ⟨[.deleteMariadbSecurityGroups], d, none⟩

/-! ## VPN gateway resource (`resource_tc_vpn_gateway.go`) -/

/-- Charge-type constant `VPN_CHARGE_TYPE_PREPAID` (value documented in the
schema description of `charge_type`). -/
def VPN_CHARGE_TYPE_PREPAID : String := "PREPAID"

/-- Charge-type constant `VPN_CHARGE_TYPE_POSTPAID_BY_HOUR`. -/
def VPN_CHARGE_TYPE_POSTPAID_BY_HOUR : String := "POSTPAID_BY_HOUR"

/-- Gateway-type constant `GATE_WAY_TYPE_CCN` (value documented in the schema
description of `type`). -/
def GATE_WAY_TYPE_CCN : String := "CCN"

/-- Attribute set of the `tencentcloud_vpn_gateway` resource.  Required or
defaulted attributes are plain values (Terraform's `Get` returns the value or
the default); optional and computed ones are `Option`. -/
structure VpnGatewayState where
  id : String
  name : String
  vpc_id : Option String
  bandwidth : Nat
  public_ip_address : Option String
  type : Option String
  state : Option String
  prepaid_renew_flag : String
  prepaid_period : Nat
  charge_type : String
  cdc_id : Option String
  max_connection : Option Nat
  expired_time : Option String
  is_address_blocked : Option Bool
  new_purchase_plan : Option String
  restrict_state : Option String
  zone : String
  tags : List (String × String)
  create_time : Option String
deriving DecidableEq, Repr

/-- Remote gateway object used by the Read: every field is written into the
state unconditionally (the Go code dereferences the SDK pointers). -/
structure VpnGatewayObj where
  name : String
  publicIpAddress : String
  bandwidth : Nat
  type : String
  createdTime : String
  state : String
  renewFlag : String
  chargeType : String
  expiredTime : String
  isAddressBlocked : Bool
  newPurchasePlan : String
  restrictState : String
  zone : String
  cdcId : String
  maxConnection : Nat
deriving DecidableEq, Repr

/-- Eventual outcomes of the API calls `resourceTencentCloudVpnGatewayRead`
may issue; `describe` is the `(has, gateway)` pair of `DescribeVpngwById`. -/
structure VpnGatewayReadEnv where
  describe : Except String (Option VpnGatewayObj)
  describeTags : Except String (List (String × String))
deriving Repr

/-- `resourceTencentCloudVpnGatewayRead`: describe by id; when the gateway is
gone clear the identifier and return nil; otherwise set every schema
attribute from the gateway object and then the tags. -/
def vpnGatewayRead (env : VpnGatewayReadEnv) (d : VpnGatewayState) :
    OpOut VpnGatewayState :=
  match env.describe with
  | .error e => ⟨[.describeVpnGateways], d, some e⟩
  | .ok none => ⟨[.describeVpnGateways], { d with id := "" }, none⟩
  | .ok (some g) =>
    let d := { d with
      name := g.name
      public_ip_address := some g.publicIpAddress
      bandwidth := g.bandwidth
      type := some g.type
      create_time := some g.createdTime
      state := some g.state
      prepaid_renew_flag := g.renewFlag
      charge_type := g.chargeType
      expired_time := some g.expiredTime
      is_address_blocked := some g.isAddressBlocked
      new_purchase_plan := some g.newPurchasePlan
      restrict_state := some g.restrictState
      zone := g.zone
      cdc_id := some g.cdcId
      max_connection := some g.maxConnection }
    match env.describeTags with
    | .error e => ⟨[.describeVpnGateways, .describeResourceTags], d, some e⟩
    | .ok tags =>
      ⟨[.describeVpnGateways, .describeResourceTags],
        { d with tags := tags }, none⟩

/-- Eventual outcomes of the API calls `resourceTencentCloudVpnGatewayCreate`
may issue: the create call (returning the optional gateway id of the
response), the poll-to-`AVAILABLE` retry loop, and the tag assignment. -/
structure VpnGatewayCreateEnv where
  create : Except String (Option String)
  poll : Option String
  modifyTags : Option String
  read : VpnGatewayReadEnv
deriving Repr

/-- `resourceTencentCloudVpnGatewayCreate`: validate the `type` / `vpc_id`
combination before any call, create the gateway under retry, fail when the
response carries no gateway, store the id, poll until `AVAILABLE`, assign
tags when configured, then Read. -/
def vpnGatewayCreate (env : VpnGatewayCreateEnv) (d : VpnGatewayState) :
    OpOut VpnGatewayState :=
  let validation : Option String :=
    match d.type with
    | some t =>
      if t ≠ "CCN" then
        if d.vpc_id.isNone then
          some ("[CRITAL] vpc_id is required for vpn gateway in " ++ t ++
            " type")
        else none
      else
        if d.vpc_id.isSome then
          some "[CRITAL] vpc_id doesn't make sense when vpn gateway is in CCN type"
        else none
    | none =>
      if d.vpc_id.isNone then
        some "[CRITAL] vpc_id is required for vpn gateway in %!s(<nil>) type"
      else none
  match validation with
  | some e => ⟨[], d, some e⟩
  | none =>
    match env.create with
    | .error e => ⟨[.createVpnGateway], d, some e⟩
    | .ok none => ⟨[.createVpnGateway], d, some "VPN gateway id is nil"⟩
    | .ok (some gatewayId) =>
      let d := { d with id := gatewayId }
      match env.poll with
      | some e => ⟨[.createVpnGateway, .describeVpnGateways], d, some e⟩
      | none =>
        if d.tags.isEmpty then
          let r := vpnGatewayRead env.read d
          ⟨[.createVpnGateway, .describeVpnGateways] ++ r.calls, r.state, r.err⟩
        else
          match env.modifyTags with
          | some e =>
            ⟨[.createVpnGateway, .describeVpnGateways, .modifyTags], d, some e⟩
          | none =>
            let r := vpnGatewayRead env.read d
            ⟨[.createVpnGateway, .describeVpnGateways, .modifyTags] ++ r.calls,
              r.state, r.err⟩

/-- Which attributes `d.HasChange` reports changed for the VPN gateway
update, plus the old value `GetChange("charge_type")` reports (the state
itself holds the new value). -/
structure VpnGatewayChanges where
  prepaid_period : Bool
  type : Bool
  prepaid_renew_flag : Bool
  name : Bool
  charge_type : Bool
  bandwidth : Bool
  tags : Bool
  cdc_id : Bool
  max_connection : Bool
  old_charge_type : String
deriving DecidableEq, Repr

/-- Eventual outcomes of the API calls `resourceTencentCloudVpnGatewayUpdate`
may issue. -/
structure VpnGatewayUpdateEnv where
  setRenewFlag : Except String Unit
  modifyAttribute : Except String Unit
  resetBandwidth : Except String Unit
  modifyTags : Option String
  read : VpnGatewayReadEnv
deriving Repr

/-- `resourceTencentCloudVpnGatewayUpdate`: fail first on the unsupported
fields `prepaid_period` and `type`; then handle `prepaid_renew_flag`,
`name`/`charge_type`, `bandwidth` and `tags`, each issuing its modify call;
the `cdc_id` / `max_connection` immutability check runs only after those
calls; finally Read. -/
def vpnGatewayUpdate (env : VpnGatewayUpdateEnv) (ch : VpnGatewayChanges)
    (d : VpnGatewayState) : OpOut VpnGatewayState :=
  if ch.prepaid_period then
    ⟨[], d, some "Template resource_tc_vpn_gateway update on prepaid_period is not supportted yet. Please renew it on controller web page."⟩
  else if ch.type then
    ⟨[], d, some "Template resource_tc_vpn_gateway update on type is not supportted yet. Please renew it on controller web page."⟩
  else
    let step1 : List ApiCall × Option String :=
      if ch.prepaid_renew_flag then
        if d.charge_type ≠ VPN_CHARGE_TYPE_PREPAID then
          ([], some "Invalid renew flag change. Only support pre-paid vpn.")
        else
          match env.setRenewFlag with
          | .error e => ([.setVpnGatewaysRenewFlag], some e)
          | .ok _ => ([.setVpnGatewaysRenewFlag], none)
      else ([], none)
    match step1 with
    | (cs1, some e) => ⟨cs1, d, some e⟩
    | (cs1, none) =>
      let step2 : List ApiCall × Option String :=
        if ch.name || ch.charge_type then
          if ch.old_charge_type = VPN_CHARGE_TYPE_POSTPAID_BY_HOUR ∧
              d.charge_type = VPN_CHARGE_TYPE_PREPAID then
            ([], some "Invalid charge type change. Only support pre-paid to post-paid way.")
          else
            match env.modifyAttribute with
            | .error e => ([.modifyVpnGatewayAttribute], some e)
            | .ok _ => ([.modifyVpnGatewayAttribute], none)
        else ([], none)
      match step2 with
      | (cs2, some e) => ⟨cs1 ++ cs2, d, some e⟩
      | (cs2, none) =>
        let step3 : List ApiCall × Option String :=
          if ch.bandwidth then
            match env.resetBandwidth with
            | .error e => ([.resetVpnGatewayInternetMaxBandwidth], some e)
            | .ok _ => ([.resetVpnGatewayInternetMaxBandwidth], none)
          else ([], none)
        match step3 with
        | (cs3, some e) => ⟨cs1 ++ cs2 ++ cs3, d, some e⟩
        | (cs3, none) =>
          let step4 : List ApiCall × Option String :=
            if ch.tags then
              match env.modifyTags with
              | some e => ([.modifyTags], some e)
              | none => ([.modifyTags], none)
            else ([], none)
          match step4 with
          | (cs4, some e) => ⟨cs1 ++ cs2 ++ cs3 ++ cs4, d, some e⟩
          | (cs4, none) =>
            if ch.cdc_id || ch.max_connection then
              ⟨cs1 ++ cs2 ++ cs3 ++ cs4, d,
                some "cdc_id and max_connection do not support change now."⟩
            else
              let r := vpnGatewayRead env.read d
              ⟨cs1 ++ cs2 ++ cs3 ++ cs4 ++ r.calls, r.state, r.err⟩

/-- The gateway data the delete-time describe gate inspects.
`untilPositive` models `time.Parse` of `ExpiredTime` followed by
`time.Until(t) > 0` against the wall clock: `none` when the parse fails,
`some b` with `b` the sign of the comparison otherwise. -/
structure VpnGwDeleteInfo where
  expiredTime : Option String
  chargeType : String
  untilPositive : Option Bool
  type : String
  networkInstanceId : String
deriving DecidableEq, Repr

/-- Final observation of the post-delete describe retry loop: a not-found SDK
error (code `VPCNotFound`), another error, the gateway still present (the
loop ends in the retryable "deleting retry" error), or the gateway gone. -/
inductive VpnDeletePollOutcome where
  | notFoundErr
  | otherErr (e : String)
  | present
  | absent
deriving DecidableEq, Repr

/-- Eventual outcomes of the API calls `resourceTencentCloudVpnGatewayDelete`
may issue. -/
structure VpnGatewayDeleteEnv where
  describeGw : Except String (Option VpnGwDeleteInfo)
  describeConnections : Except String Nat
  delete : Except String Unit
  pollFinal : VpnDeletePollOutcome
deriving Repr

/-- The checks the delete-time describe gate of
`resourceTencentCloudVpnGatewayDelete` performs on a found gateway: reject a
PREPAID gateway whose non-zero expiry fails to parse (`untilPositive = none`)
or lies in the future (`untilPositive = some true`), then reject a CCN
gateway attached to a network instance. -/
def vpnDeleteGateCheck (gw : VpnGwDeleteInfo) : Option String :=
  let prepaidErr : Option String :=
    match gw.expiredTime with
    | some et =>
      if gw.chargeType = VPN_CHARGE_TYPE_PREPAID then
        if et ≠ "0000-00-00 00:00:00" then
          match gw.untilPositive with
          | none => some ("Error format expired time." ++ et)
          | some b =>
            if b then
              some "Delete operation is unsupport when VPN gateway is not expired."
            else none
        else none
      else none
    | none => none
  match prepaidErr with
  | some e => some e
  | none =>
    if gw.type = GATE_WAY_TYPE_CCN ∧ gw.networkInstanceId ≠ "" then
      some "Delete operation is unsupported when VPN gateway is attached to CCN instance."
    else none

/-- `resourceTencentCloudVpnGatewayDelete`: describe the gateway and refuse
to delete an unexpired PREPAID gateway or a CCN gateway attached to a network
instance; refuse while VPN connections are associated; only then issue
`DeleteVpnGateway` and poll until the gateway is gone. -/
def vpnGatewayDelete (env : VpnGatewayDeleteEnv) (d : VpnGatewayState) :
    OpOut VpnGatewayState :=
  match env.describeGw with
  | .error e => ⟨[.describeVpnGateways], d, some e⟩
  | .ok gwOpt =>
    let gateErr : Option String :=
      match gwOpt with
      | none => none
      | some gw => vpnDeleteGateCheck gw
    match gateErr with
    | some e => ⟨[.describeVpnGateways], d, some e⟩
    | none =>
      match env.describeConnections with
      | .error e => ⟨[.describeVpnGateways, .describeVpnConnections], d, some e⟩
      | .ok n =>
        if n ≠ 0 then
          ⟨[.describeVpnGateways, .describeVpnConnections], d,
            some "There is associated tunnel exists, please delete associated tunnels first."⟩
        else
          match env.delete with
          | .error e =>
            ⟨[.describeVpnGateways, .describeVpnConnections, .deleteVpnGateway],
              d, some e⟩
          | .ok _ =>
            let full : List ApiCall :=
              [.describeVpnGateways, .describeVpnConnections, .deleteVpnGateway,
                .describeVpnGateways]
            match env.pollFinal with
            | .notFoundErr => ⟨full, d, none⟩
            | .otherErr e => ⟨full, d, some e⟩
            | .present => ⟨full, d, some "deleting retry"⟩
            | .absent => ⟨full, d, none⟩

/-! ## EIP resource (`resource_tc_eip.go`) -/

/-- Status constant `EIP_STATUS_CREATING` (the create poll retries while the
address status equals it). -/
def EIP_STATUS_CREATING : String := "CREATING"

/-- Attribute set of the `tencentcloud_eip` resource. -/
structure EipState where
  id : String
  name : Option String
  type : Option String
  anycast_zone : Option String
  applicable_for_clb : Option Bool
  internet_service_provider : Option String
  internet_charge_type : Option String
  internet_max_bandwidth_out : Option Nat
  tags : List (String × String)
  bandwidth_package_id : Option String
  public_ip : Option String
  status : Option String
deriving DecidableEq, Repr

/-- Remote address object used by the EIP Read; its fields are written
unconditionally. -/
structure EipObj where
  addressName : String
  addressType : String
  addressIp : String
  addressStatus : String
  internetChargeType : String
deriving DecidableEq, Repr

/-- Eventual outcomes of the API calls `resourceTencentCloudEipRead` may
issue. -/
structure EipReadEnv where
  describe : Except String (Option EipObj)
  describeTags : Except String (List (String × String))
  describeBgp : Except String (Option String)
deriving Repr

/-- `resourceTencentCloudEipRead`: describe by id (absence clears the
identifier and returns nil), fetch tags and the bandwidth package, then set
`name`, `type`, `public_ip`, `status`, `internet_charge_type` and `tags`,
and `bandwidth_package_id` only when a package is attached. -/
def eipRead (env : EipReadEnv) (d : EipState) : OpOut EipState :=
  match env.describe with
  | .error e => ⟨[.describeAddresses], d, some e⟩
  | .ok none => ⟨[.describeAddresses], { d with id := "" }, none⟩
  | .ok (some eip) =>
    match env.describeTags with
    | .error e => ⟨[.describeAddresses, .describeResourceTags], d, some e⟩
    | .ok tags =>
      match env.describeBgp with
      | .error e =>
        ⟨[.describeAddresses, .describeResourceTags, .describeBandwidthPackages],
          d, some e⟩
      | .ok bgp =>
        let d := { d with
          name := some eip.addressName
          type := some eip.addressType
          public_ip := some eip.addressIp
          status := some eip.addressStatus
          internet_charge_type := some eip.internetChargeType
          tags := tags }
        let d :=
          match bgp with
          | some bpid => { d with bandwidth_package_id := some bpid }
          | none => d
        ⟨[.describeAddresses, .describeResourceTags, .describeBandwidthPackages],
          d, none⟩

/-- Eventual outcomes of the API calls `resourceTencentCloudEipCreate` may
issue: the allocation (returning the new eip id), the tag assignment, the
poll that retries while the status is `CREATING`, and the name
modification. -/
structure EipCreateEnv where
  allocate : Except String String
  modifyTags : Option String
  poll : Option String
  modifyName : Except String Unit
  read : EipReadEnv
deriving Repr

/-- `resourceTencentCloudEipCreate`: allocate the address under retry and
store its id, assign tags when configured, poll until the status leaves
`CREATING`, set the configured name, then Read.  Note the tag assignment
precedes the status poll. -/
def eipCreate (env : EipCreateEnv) (d : EipState) : OpOut EipState :=
  match env.allocate with
  | .error e => ⟨[.allocateAddresses], d, some e⟩
  | .ok eipId =>
    let d := { d with id := eipId }
    let tagStep : List ApiCall × Option String :=
      if d.tags.isEmpty then ([], none)
      else
        match env.modifyTags with
        | some e => ([.modifyTags], some e)
        | none => ([.modifyTags], none)
    match tagStep with
    | (cs, some e) => ⟨[.allocateAddresses] ++ cs, d, some e⟩
    | (cs, none) =>
      match env.poll with
      | some e => ⟨[.allocateAddresses] ++ cs ++ [.describeAddresses], d, some e⟩
      | none =>
        match d.name with
        | some _ =>
          match env.modifyName with
          | .error e =>
            ⟨[.allocateAddresses] ++ cs ++
              [.describeAddresses, .modifyAddressAttribute], d, some e⟩
          | .ok _ =>
            let r := eipRead env.read d
            ⟨[.allocateAddresses] ++ cs ++
              [.describeAddresses, .modifyAddressAttribute] ++ r.calls,
              r.state, r.err⟩
        | none =>
          let r := eipRead env.read d
          ⟨[.allocateAddresses] ++ cs ++ [.describeAddresses] ++ r.calls,
            r.state, r.err⟩

/-- Which attributes `d.HasChange` reports changed for the EIP update. -/
structure EipChanges where
  bandwidth_package_id : Bool
  name : Bool
  internet_max_bandwidth_out : Bool
  tags : Bool
deriving DecidableEq, Repr

/-- Eventual outcomes of the API calls `resourceTencentCloudEipUpdate` may
issue. -/
structure EipUpdateEnv where
  modifyName : Except String Unit
  modifyBandwidth : Except String Unit
  modifyTags : Option String
  read : EipReadEnv
deriving Repr

/-- `resourceTencentCloudEipUpdate`: fail first on the unsupported field
`bandwidth_package_id`; then modify the name, the bandwidth (when the
attribute is present), and the tags; finally Read. -/
def eipUpdate (env : EipUpdateEnv) (ch : EipChanges) (d : EipState) :
    OpOut EipState :=
  if ch.bandwidth_package_id then
    ⟨[], d, some "tencentcloud_eip update on bandwidth_package_id is not support yet"⟩
  else
    let step1 : List ApiCall × Option String :=
      if ch.name then
        match env.modifyName with
        | .error e => ([.modifyAddressAttribute], some e)
        | .ok _ => ([.modifyAddressAttribute], none)
      else ([], none)
    match step1 with
    | (cs1, some e) => ⟨cs1, d, some e⟩
    | (cs1, none) =>
      let step2 : List ApiCall × Option String :=
        if ch.internet_max_bandwidth_out ∧ d.internet_max_bandwidth_out.isSome
        then
          match env.modifyBandwidth with
          | .error e => ([.modifyAddressesBandwidth], some e)
          | .ok _ => ([.modifyAddressesBandwidth], none)
        else ([], none)
      match step2 with
      | (cs2, some e) => ⟨cs1 ++ cs2, d, some e⟩
      | (cs2, none) =>
        let step3 : List ApiCall × Option String :=
          if ch.tags then
            match env.modifyTags with
            | some e => ([.modifyTags], some e)
            | none => ([.modifyTags], none)
          else ([], none)
        match step3 with
        | (cs3, some e) => ⟨cs1 ++ cs2 ++ cs3, d, some e⟩
        | (cs3, none) =>
          let r := eipRead env.read d
          ⟨cs1 ++ cs2 ++ cs3 ++ r.calls, r.state, r.err⟩

/-- Eventual outcomes of the API calls `resourceTencentCloudEipDelete` may
issue: unattach, delete, and the final observation of the post-delete
describe retry loop. -/
structure EipDeleteEnv where
  unattach : Except String Unit
  delete : Except String Unit
  finalDescribe : Except String (Option EipObj)
deriving Repr

/-- `resourceTencentCloudEipDelete`: unattach the address, delete it, then
poll the describe until the address is gone; a still-present address makes
the retry loop end in the retryable "eip is still deleting" error. -/
def eipDelete (env : EipDeleteEnv) (d : EipState) : OpOut EipState :=
  match env.unattach with
  | .error e => ⟨[.unassociateAddress], d, some e⟩
  | .ok _ =>
    match env.delete with
    | .error e => ⟨[.unassociateAddress, .releaseAddresses], d, some e⟩
    | .ok _ =>
      match env.finalDescribe with
      | .error e =>
        ⟨[.unassociateAddress, .releaseAddresses, .describeAddresses], d, some e⟩
      | .ok (some _) =>
        ⟨[.unassociateAddress, .releaseAddresses, .describeAddresses], d,
          some "eip is still deleting"⟩
      | .ok none =>
        ⟨[.unassociateAddress, .releaseAddresses, .describeAddresses], d, none⟩

/-! ## TSF application config resource
(`resource_tc_tsf_application_config.go`) -/

/-- Attribute set of the `tencentcloud_tsf_application_config` resource. -/
structure TsfApplicationConfigState where
  id : String
  config_name : Option String
  config_version : Option String
  config_value : Option String
  application_id : Option String
  config_version_desc : Option String
  config_type : Option String
  encode_with_base64 : Option Bool
  program_id_list : Option (List String)
deriving DecidableEq, Repr

/-- Remote config object returned by `DescribeTsfApplicationConfigById`; the
SDK fields are pointers, hence `Option`; `configId` is dereferenced
unconditionally by the create. -/
structure TsfConfigObj where
  configId : String
  configName : Option String
  configVersion : Option String
  configValue : Option String
  applicationId : Option String
  configVersionDesc : Option String
  configType : Option String
deriving DecidableEq, Repr

/-- Eventual outcome of the API call
`resourceTencentCloudTsfApplicationConfigRead` may issue. -/
structure TsfApplicationConfigReadEnv where
  describe : Except String (Option TsfConfigObj)
deriving Repr

/-- `resourceTencentCloudTsfApplicationConfigRead`: describe by id; on
absence clear the identifier and return nil; otherwise set each of the six
string attributes when its remote field is non-nil.  The sets of
`encode_with_base64` and `program_id_list` are commented out in the source,
so those attributes are never written. -/
def tsfApplicationConfigRead (env : TsfApplicationConfigReadEnv)
    (d : TsfApplicationConfigState) : OpOut TsfApplicationConfigState :=
  match env.describe with
  | .error e => ⟨[.describeConfig], d, some e⟩
  | .ok none => ⟨[.describeConfig], { d with id := "" }, none⟩
  | .ok (some c) =>
    ⟨[.describeConfig],
      { d with
        config_name := setIfSome c.configName d.config_name
        config_version := setIfSome c.configVersion d.config_version
        config_value := setIfSome c.configValue d.config_value
        application_id := setIfSome c.applicationId d.application_id
        config_version_desc :=
          setIfSome c.configVersionDesc d.config_version_desc
        config_type := setIfSome c.configType d.config_type }, none⟩

/-- Eventual outcomes of the API calls
`resourceTencentCloudTsfApplicationConfigCreate` may issue: the create call
(returning the response `Result` flag) and the describe-by-name used to
recover the assigned config id. -/
structure TsfApplicationConfigCreateEnv where
  create : Except String Bool
  describeByName : Except String TsfConfigObj
  read : TsfApplicationConfigReadEnv
deriving Repr

/-- `resourceTencentCloudTsfApplicationConfigCreate`: create under retry;
when the response result flag is true, describe by config name to obtain the
assigned id, store it, and Read; otherwise fail.  There is no status poll
and no tag assignment. -/
def tsfApplicationConfigCreate (env : TsfApplicationConfigCreateEnv)
    (d : TsfApplicationConfigState) : OpOut TsfApplicationConfigState :=
  match env.create with
  | .error e => ⟨[.createConfig], d, some e⟩
  | .ok result =>
    if result then
      match env.describeByName with
      | .error e => ⟨[.createConfig, .describeConfig], d, some e⟩
      | .ok obj =>
        let d := { d with id := obj.configId }
        let r := tsfApplicationConfigRead env.read d
        ⟨[.createConfig, .describeConfig] ++ r.calls, r.state, r.err⟩
    else
      ⟨[.createConfig], d,
        some "Creation failed, and the return result of interface creation is false"⟩

/-- Which attributes `d.HasChange` reports changed for the TSF application
config update; all eight schema attributes are immutable. -/
structure TsfApplicationConfigChanges where
  config_name : Bool
  config_version : Bool
  config_value : Bool
  application_id : Bool
  config_version_desc : Bool
  config_type : Bool
  encode_with_base64 : Bool
  program_id_list : Bool
deriving DecidableEq, Repr

/-- `resourceTencentCloudTsfApplicationConfigUpdate`: fail on any changed
attribute (they are all immutable) without issuing any call, then Read. -/
def tsfApplicationConfigUpdate (env : TsfApplicationConfigReadEnv)
    (ch : TsfApplicationConfigChanges) (d : TsfApplicationConfigState) :
    OpOut TsfApplicationConfigState :=
  if ch.config_name then
    ⟨[], d, some "argument `config_name` cannot be changed"⟩
  else if ch.config_version then
    ⟨[], d, some "argument `config_version` cannot be changed"⟩
  else if ch.config_value then
    ⟨[], d, some "argument `config_value` cannot be changed"⟩
  else if ch.application_id then
    ⟨[], d, some "argument `application_id` cannot be changed"⟩
  else if ch.config_version_desc then
    ⟨[], d, some "argument `config_version_desc` cannot be changed"⟩
  else if ch.config_type then
    ⟨[], d, some "argument `config_type` cannot be changed"⟩
  else if ch.encode_with_base64 then
    ⟨[], d, some "argument `encode_with_base64` cannot be changed"⟩
  else if ch.program_id_list then
    ⟨[], d, some "argument `program_id_list` cannot be changed"⟩
  else
    let r := tsfApplicationConfigRead env d
    ⟨r.calls, r.state, r.err⟩

/-- Eventual outcome of the API call
`resourceTencentCloudTsfApplicationConfigDelete` may issue. -/
structure TsfApplicationConfigDeleteEnv where
  delete : Except String Unit
deriving Repr

/-- `resourceTencentCloudTsfApplicationConfigDelete`: issue the delete call
and return; there is no post-delete poll. -/
def tsfApplicationConfigDelete (env : TsfApplicationConfigDeleteEnv)
    (d : TsfApplicationConfigState) : OpOut TsfApplicationConfigState :=
  match env.delete with
  | .error e => ⟨[.deleteConfig], d, some e⟩
  | .ok _ => ⟨[.deleteConfig], d, none⟩

/-! ## DBbrain security-audit-log-export-tasks data source
(`data_source_tc_dbbrain_security_audit_log_export_tasks.go`) -/

/-- One `SecLogExportTaskInfo` of the vendor response; every SDK field is a
pointer, hence `Option`. -/
structure SecLogExportTaskInfo where
  asyncRequestId : Option Nat
  startTime : Option String
  endTime : Option String
  createTime : Option String
  status : Option String
  progress : Option Nat
  logStartTime : Option String
  logEndTime : Option String
  totalSize : Option Nat
  dangerLevels : Option (List Nat)
deriving DecidableEq, Repr

/-- A value written into the per-task attribute map. -/
inductive AttrVal where
  | s (v : String)
  | n (v : Nat)
  | ln (v : List Nat)
deriving DecidableEq, Repr

/-- The per-task `taskMap` construction: every field is guarded by a nil
check, so the map is total in the task. -/
def buildTaskMap (t : SecLogExportTaskInfo) : List (String × AttrVal) :=
  (match t.asyncRequestId with
    | some v => [("async_request_id", AttrVal.n v)]
    | none => []) ++
  (match t.startTime with
    | some v => [("start_time", AttrVal.s v)]
    | none => []) ++
  (match t.endTime with
    | some v => [("end_time", AttrVal.s v)]
    | none => []) ++
  (match t.createTime with
    | some v => [("create_time", AttrVal.s v)]
    | none => []) ++
  (match t.status with
    | some v => [("status", AttrVal.s v)]
    | none => []) ++
  (match t.progress with
    | some v => [("progress", AttrVal.n v)]
    | none => []) ++
  (match t.logStartTime with
    | some v => [("log_start_time", AttrVal.s v)]
    | none => []) ++
  (match t.logEndTime with
    | some v => [("log_end_time", AttrVal.s v)]
    | none => []) ++
  (match t.totalSize with
    | some v => [("total_size", AttrVal.n v)]
    | none => []) ++
  (match t.dangerLevels with
    | some v => [("danger_levels", AttrVal.ln v)]
    | none => [])

/-- The loop of `dataSourceTencentCloudDbbrainSecurityAuditLogExportTasksRead`
that builds the identifier list and the task list: for each task it builds
the guarded `taskMap` and then appends
`sag_id + FILED_SP + UInt64ToStr(*task.AsyncRequestId)` to the ids,
dereferencing `AsyncRequestId` without a nil check — `none` models the
resulting nil-pointer crash. -/
def buildTaskData (sagId : String) :
    List SecLogExportTaskInfo →
      Option (List String × List (List (String × AttrVal)))
  | [] => some ([], [])
  | t :: rest =>
    match t.asyncRequestId with
    | none => none
    | some rid =>
      (buildTaskData sagId rest).map
        (fun p =>
          ((sagId ++ FILED_SP ++ toString rid) :: p.1, buildTaskMap t :: p.2))

/-! ## Shared helper lemmas -/

/-- Re-applying the same guarded set is a no-op. -/
theorem setIfSome_idem (a b : Option α) :
    setIfSome a (setIfSome a b) = setIfSome a b := by
  cases a <;> rfl

/-! ## C1 -/

/-- C1: the claim "for every resource type, when Read is invoked with an
identifier whose remote object is absent, the operation clears the local
identifier and returns without error" is false for the MariaDB
security-groups resource: with identifier `a#b#c` and an absent remote
security group, its Read clears the identifier but returns a
does-not-exist error instead of nil. -/
theorem c1_read_absent_counterexample :
    (mariadbSecurityGroupsRead ⟨.ok none⟩
      { id := "a#b#c", instance_id := none, security_group_id := none,
        product := none }).state.id = "" ∧
    (mariadbSecurityGroupsRead ⟨.ok none⟩
      { id := "a#b#c", instance_id := none, security_group_id := none,
        product := none }).err =
      some "resource `securityGroups` b does not exist" := by
  decide

/-- C1 (amended): for every resource type, Read on an absent remote object
clears the local identifier; the CFS snapshot, VPN gateway, EIP and TSF
application-config Reads then return without error, while the MariaDB
security-groups Read returns a does-not-exist error after clearing the
identifier. -/
theorem c1_read_absent_clears_id :
    (∀ (env : CfsSnapshotReadEnv) (d : CfsSnapshotState),
      env.describe = .ok none →
        (cfsSnapshotRead env d).state.id = "" ∧
        (cfsSnapshotRead env d).err = none) ∧
    (∀ (env : VpnGatewayReadEnv) (d : VpnGatewayState),
      env.describe = .ok none →
        (vpnGatewayRead env d).state.id = "" ∧
        (vpnGatewayRead env d).err = none) ∧
    (∀ (env : EipReadEnv) (d : EipState),
      env.describe = .ok none →
        (eipRead env d).state.id = "" ∧ (eipRead env d).err = none) ∧
    (∀ (env : TsfApplicationConfigReadEnv) (d : TsfApplicationConfigState),
      env.describe = .ok none →
        (tsfApplicationConfigRead env d).state.id = "" ∧
        (tsfApplicationConfigRead env d).err = none) ∧
    (∀ (env : MariadbSecurityGroupsReadEnv) (d : MariadbSecurityGroupsState),
      (splitFiledSp d.id).length = 3 →
      env.describe = .ok none →
        (mariadbSecurityGroupsRead env d).state.id = "" ∧
        (mariadbSecurityGroupsRead env d).err ≠ none) := by
  refine ⟨?_, ?_, ?_, ?_, ?_⟩
  · intro env d h
    simp [cfsSnapshotRead, h]
  · intro env d h
    simp [vpnGatewayRead, h]
  · intro env d h
    simp [eipRead, h]
  · intro env d h
    simp [tsfApplicationConfigRead, h]
  · intro env d hlen h
    simp [mariadbSecurityGroupsRead, hlen, h]

/-- C1 witness: the amended statement instantiated at concrete absent-remote
environments for all five resource types. -/
theorem c1_read_absent_clears_id_witness :
    (cfsSnapshotRead ⟨.ok none, .ok []⟩
      { id := "snap-1", file_system_id := none, snapshot_name := none,
        tags := none }).state.id = "" ∧
    (tsfApplicationConfigRead ⟨.ok none⟩
      { id := "dcfg-1", config_name := none, config_version := none,
        config_value := none, application_id := none,
        config_version_desc := none, config_type := none,
        encode_with_base64 := none, program_id_list := none }).err = none ∧
    (mariadbSecurityGroupsRead ⟨.ok none⟩
      { id := "a#b#c", instance_id := none, security_group_id := none,
        product := none }).err ≠ none := by
  refine ⟨(c1_read_absent_clears_id.1 _ _ rfl).1,
    (c1_read_absent_clears_id.2.2.2.1 _ _ rfl).2,
    (c1_read_absent_clears_id.2.2.2.2 _ _ (by decide) rfl).2⟩


/-! ## C2 -/

/-- C2: the claim "Update on a changed immutable attribute fails without
issuing any vendor API modify call (in particular no modify call for other
changed attributes is issued before the failure)" is false for the VPN
gateway: an update changing both `name` and the immutable `cdc_id` issues
`ModifyVpnGatewayAttribute` for the name before failing on `cdc_id`. -/
theorem c2_update_immutable_counterexample :
    (vpnGatewayUpdate
      ⟨.ok (), .ok (), .ok (), none, ⟨.ok none, .ok []⟩⟩
      { prepaid_period := false, type := false, prepaid_renew_flag := false,
        name := true, charge_type := false, bandwidth := false, tags := false,
        cdc_id := true, max_connection := false,
        old_charge_type := "POSTPAID_BY_HOUR" }
      { id := "vpngw-1", name := "n", vpc_id := some "vpc-1", bandwidth := 5,
        public_ip_address := none, type := none, state := none,
        prepaid_renew_flag := "NOTIFY_AND_AUTO_RENEW", prepaid_period := 1,
        charge_type := "POSTPAID_BY_HOUR", cdc_id := none,
        max_connection := none, expired_time := none,
        is_address_blocked := none, new_purchase_plan := none,
        restrict_state := none, zone := "z", tags := [],
        create_time := none }).err =
      some "cdc_id and max_connection do not support change now." ∧
    (vpnGatewayUpdate
      ⟨.ok (), .ok (), .ok (), none, ⟨.ok none, .ok []⟩⟩
      { prepaid_period := false, type := false, prepaid_renew_flag := false,
        name := true, charge_type := false, bandwidth := false, tags := false,
        cdc_id := true, max_connection := false,
        old_charge_type := "POSTPAID_BY_HOUR" }
      { id := "vpngw-1", name := "n", vpc_id := some "vpc-1", bandwidth := 5,
        public_ip_address := none, type := none, state := none,
        prepaid_renew_flag := "NOTIFY_AND_AUTO_RENEW", prepaid_period := 1,
        charge_type := "POSTPAID_BY_HOUR", cdc_id := none,
        max_connection := none, expired_time := none,
        is_address_blocked := none, new_purchase_plan := none,
        restrict_state := none, zone := "z", tags := [],
        create_time := none }).calls = [.modifyVpnGatewayAttribute] := by
  decide

/-- C2 (amended): Update on a changed immutable attribute returns a
descriptive error.  For the TSF application config (all eight attributes),
the MariaDB security groups (all three attributes), the EIP
(`bandwidth_package_id`) and the VPN gateway attributes `prepaid_period` and
`type`, the error is returned before any vendor API call; for the VPN
gateway attributes `cdc_id` and `max_connection` the check runs after the
other modify branches, so modify calls for other changed attributes may
already have been issued when the error is returned. -/
theorem c2_update_immutable_fails :
    (∀ (env : TsfApplicationConfigReadEnv) (ch : TsfApplicationConfigChanges)
        (d : TsfApplicationConfigState),
      (ch.config_name = true ∨ ch.config_version = true ∨
        ch.config_value = true ∨ ch.application_id = true ∨
        ch.config_version_desc = true ∨ ch.config_type = true ∨
        ch.encode_with_base64 = true ∨ ch.program_id_list = true) →
        (tsfApplicationConfigUpdate env ch d).err.isSome ∧
        (tsfApplicationConfigUpdate env ch d).calls = []) ∧
    (∀ (env : MariadbSecurityGroupsUpdateEnv)
        (ch : MariadbSecurityGroupsChanges) (d : MariadbSecurityGroupsState),
      (ch.instance_id = true ∨ ch.security_group_id = true ∨
        ch.product = true) →
        (mariadbSecurityGroupsUpdate env ch d).err.isSome ∧
        (mariadbSecurityGroupsUpdate env ch d).calls = []) ∧
    (∀ (env : EipUpdateEnv) (ch : EipChanges) (d : EipState),
      ch.bandwidth_package_id = true →
        (eipUpdate env ch d).err.isSome ∧ (eipUpdate env ch d).calls = []) ∧
    (∀ (env : VpnGatewayUpdateEnv) (ch : VpnGatewayChanges)
        (d : VpnGatewayState),
      (ch.prepaid_period = true ∨ ch.type = true) →
        (vpnGatewayUpdate env ch d).err.isSome ∧
        (vpnGatewayUpdate env ch d).calls = []) ∧
    (∀ (env : VpnGatewayUpdateEnv) (ch : VpnGatewayChanges)
        (d : VpnGatewayState),
      (ch.cdc_id = true ∨ ch.max_connection = true) →
        (vpnGatewayUpdate env ch d).err.isSome) := by
  refine ⟨?_, ?_, ?_, ?_, ?_⟩
  · intro env ch d h
    unfold tsfApplicationConfigUpdate
    split_ifs <;> simp_all
  · intro env ch d h
    by_cases hl : (splitFiledSp d.id).length = 3 <;>
      rcases h with h | h | h <;> simp_all [mariadbSecurityGroupsUpdate] <;>
        split_ifs <;> simp
  · intro env ch d h
    simp [eipUpdate, h]
  · intro env ch d h
    rcases h with h | h
    · simp [vpnGatewayUpdate, h]
    · cases hpp : ch.prepaid_period <;> simp [vpnGatewayUpdate, h, hpp]
  · intro env ch d h
    cases hpp : ch.prepaid_period
    · cases hty : ch.type
      · unfold vpnGatewayUpdate
        simp only [hpp, hty, Bool.false_eq_true, if_false]
        split
        · simp
        · split
          · simp
          · split
            · simp
            · split
              · simp
              · split_ifs with h3
                · simp
                · rcases h with h | h <;> simp [h] at h3
      · simp [vpnGatewayUpdate, hpp, hty]
    · simp [vpnGatewayUpdate, hpp]

/-- C2 witness: the amended statement instantiated at concrete inputs for
each resource type. -/
theorem c2_update_immutable_fails_witness :
    (tsfApplicationConfigUpdate ⟨.ok none⟩
      { config_name := true, config_version := false, config_value := false,
        application_id := false, config_version_desc := false,
        config_type := false, encode_with_base64 := false,
        program_id_list := false }
      { id := "dcfg-1", config_name := none, config_version := none,
        config_value := none, application_id := none,
        config_version_desc := none, config_type := none,
        encode_with_base64 := none, program_id_list := none }).calls = [] ∧
    (mariadbSecurityGroupsUpdate ⟨.ok (), ⟨.ok none⟩⟩
      { instance_id := false, security_group_id := true, product := false }
      { id := "a#b#c", instance_id := none, security_group_id := none,
        product := none }).calls = [] ∧
    (eipUpdate ⟨.ok (), .ok (), none, ⟨.ok none, .ok [], .ok none⟩⟩
      { bandwidth_package_id := true, name := false,
        internet_max_bandwidth_out := false, tags := false }
      { id := "eip-1", name := none, type := none, anycast_zone := none,
        applicable_for_clb := none, internet_service_provider := none,
        internet_charge_type := none, internet_max_bandwidth_out := none,
        tags := [], bandwidth_package_id := none, public_ip := none,
        status := none }).calls = [] ∧
    (vpnGatewayUpdate ⟨.ok (), .ok (), .ok (), none, ⟨.ok none, .ok []⟩⟩
      { prepaid_period := true, type := false, prepaid_renew_flag := false,
        name := false, charge_type := false, bandwidth := false,
        tags := false, cdc_id := false, max_connection := false,
        old_charge_type := "POSTPAID_BY_HOUR" }
      { id := "vpngw-1", name := "n", vpc_id := some "vpc-1", bandwidth := 5,
        public_ip_address := none, type := none, state := none,
        prepaid_renew_flag := "NOTIFY_AND_AUTO_RENEW", prepaid_period := 1,
        charge_type := "POSTPAID_BY_HOUR", cdc_id := none,
        max_connection := none, expired_time := none,
        is_address_blocked := none, new_purchase_plan := none,
        restrict_state := none, zone := "z", tags := [],
        create_time := none }).calls = [] ∧
    (vpnGatewayUpdate ⟨.ok (), .ok (), .ok (), none, ⟨.ok none, .ok []⟩⟩
      { prepaid_period := false, type := false, prepaid_renew_flag := false,
        name := false, charge_type := false, bandwidth := false,
        tags := false, cdc_id := true, max_connection := false,
        old_charge_type := "POSTPAID_BY_HOUR" }
      { id := "vpngw-1", name := "n", vpc_id := some "vpc-1", bandwidth := 5,
        public_ip_address := none, type := none, state := none,
        prepaid_renew_flag := "NOTIFY_AND_AUTO_RENEW", prepaid_period := 1,
        charge_type := "POSTPAID_BY_HOUR", cdc_id := none,
        max_connection := none, expired_time := none,
        is_address_blocked := none, new_purchase_plan := none,
        restrict_state := none, zone := "z", tags := [],
        create_time := none }).err.isSome := by
  refine ⟨(c2_update_immutable_fails.1 _ _ _ (Or.inl rfl)).2,
    (c2_update_immutable_fails.2.1 _ _ _ (Or.inr (Or.inl rfl))).2,
    (c2_update_immutable_fails.2.2.1 _ _ _ rfl).2,
    (c2_update_immutable_fails.2.2.2.1 _ _ _ (Or.inl rfl)).2,
    c2_update_immutable_fails.2.2.2.2 _ _ _ (Or.inl rfl)⟩


/-! ## C3 -/

/-- C3: the claim "a successful Create performs the create call, then stores
the identifier, then polls status to `available`, then applies tag
assignment, and finally performs Read" is false for the EIP resource: at
this concrete input the tag-assignment call (`modifyTags`, position 1) is
issued before the status poll (`describeAddresses`, position 2), and the
poll ends when the status leaves `CREATING` rather than at `available`. -/
theorem c3_create_order_counterexample :
    (eipCreate
      ⟨.ok "eip-1", none, none, .ok (),
        ⟨.ok (some ⟨"n", "EIP", "1.2.3.4", "UNBIND", "TRAFFIC_POSTPAID_BY_HOUR"⟩),
          .ok [("k", "v")], .ok none⟩⟩
      { id := "", name := some "n", type := some "EIP", anycast_zone := none,
        applicable_for_clb := none, internet_service_provider := none,
        internet_charge_type := none, internet_max_bandwidth_out := none,
        tags := [("k", "v")], bandwidth_package_id := none, public_ip := none,
        status := none }).calls =
      [.allocateAddresses, .modifyTags, .describeAddresses,
        .modifyAddressAttribute, .describeAddresses, .describeResourceTags,
        .describeBandwidthPackages] ∧
    (eipCreate
      ⟨.ok "eip-1", none, none, .ok (),
        ⟨.ok (some ⟨"n", "EIP", "1.2.3.4", "UNBIND", "TRAFFIC_POSTPAID_BY_HOUR"⟩),
          .ok [("k", "v")], .ok none⟩⟩
      { id := "", name := some "n", type := some "EIP", anycast_zone := none,
        applicable_for_clb := none, internet_service_provider := none,
        internet_charge_type := none, internet_max_bandwidth_out := none,
        tags := [("k", "v")], bandwidth_package_id := none, public_ip := none,
        status := none }).calls.indexOf .modifyTags <
    (eipCreate
      ⟨.ok "eip-1", none, none, .ok (),
        ⟨.ok (some ⟨"n", "EIP", "1.2.3.4", "UNBIND", "TRAFFIC_POSTPAID_BY_HOUR"⟩),
          .ok [("k", "v")], .ok none⟩⟩
      { id := "", name := some "n", type := some "EIP", anycast_zone := none,
        applicable_for_clb := none, internet_service_provider := none,
        internet_charge_type := none, internet_max_bandwidth_out := none,
        tags := [("k", "v")], bandwidth_package_id := none, public_ip := none,
        status := none }).calls.indexOf .describeAddresses := by
  decide

/-- C3 (amended): on fully successful runs, the CFS snapshot and VPN gateway
Creates issue the create call, store the assigned identifier, poll until the
`available` state, assign tags, and end with Read; the EIP Create assigns
tags immediately after storing the identifier and before the poll (which
only waits for the status to leave `CREATING`), then sets the name, then
Reads; the TSF application-config Create performs no poll and no tag
assignment, recovering the identifier through a describe-by-name before the
final Read. -/
theorem c3_create_order :
    (∀ (env : CfsSnapshotCreateEnv) (d : CfsSnapshotState) (sid : String)
        (snap : CfsSnapshotObj) (tg : List (String × String)),
      env.create = .ok sid → env.wait = none →
      d.getTags.isEmpty = false → env.modifyTags = none →
      env.read.describe = .ok (some snap) → env.read.describeTags = .ok tg →
        (cfsSnapshotCreate env d).calls =
          [.createCfsSnapshot, .describeCfsSnapshot, .modifyTags,
            .describeCfsSnapshot, .describeResourceTags] ∧
        (cfsSnapshotCreate env d).state.id = sid ∧
        (cfsSnapshotCreate env d).err = none) ∧
    (∀ (env : VpnGatewayCreateEnv) (d : VpnGatewayState) (gid : String)
        (g : VpnGatewayObj) (tg : List (String × String)),
      d.type = none → d.vpc_id.isSome →
      env.create = .ok (some gid) → env.poll = none →
      d.tags.isEmpty = false → env.modifyTags = none →
      env.read.describe = .ok (some g) → env.read.describeTags = .ok tg →
        (vpnGatewayCreate env d).calls =
          [.createVpnGateway, .describeVpnGateways, .modifyTags,
            .describeVpnGateways, .describeResourceTags] ∧
        (vpnGatewayCreate env d).state.id = gid ∧
        (vpnGatewayCreate env d).err = none) ∧
    (∀ (env : EipCreateEnv) (d : EipState) (eid : String) (o : EipObj)
        (tg : List (String × String)) (bg : Option String) (nm : String),
      env.allocate = .ok eid → d.tags.isEmpty = false →
      env.modifyTags = none → env.poll = none → d.name = some nm →
      env.modifyName = .ok () →
      env.read.describe = .ok (some o) → env.read.describeTags = .ok tg →
      env.read.describeBgp = .ok bg →
        (eipCreate env d).calls =
          [.allocateAddresses, .modifyTags, .describeAddresses,
            .modifyAddressAttribute, .describeAddresses, .describeResourceTags,
            .describeBandwidthPackages] ∧
        (eipCreate env d).state.id = eid ∧ (eipCreate env d).err = none) ∧
    (∀ (env : TsfApplicationConfigCreateEnv) (d : TsfApplicationConfigState)
        (obj : TsfConfigObj) (c : TsfConfigObj),
      env.create = .ok true → env.describeByName = .ok obj →
      env.read.describe = .ok (some c) →
        (tsfApplicationConfigCreate env d).calls =
          [.createConfig, .describeConfig, .describeConfig] ∧
        (tsfApplicationConfigCreate env d).state.id = obj.configId ∧
        (tsfApplicationConfigCreate env d).err = none) := by
  refine ⟨?_, ?_, ?_, ?_⟩
  · intro env d sid snap tg h1 h2 h3 h4 h5 h6
    have h3a : ¬(d.tags.getD [] = []) := by
      simpa [CfsSnapshotState.getTags, List.isEmpty_iff] using h3
    simp [cfsSnapshotCreate, cfsSnapshotRead, CfsSnapshotState.getTags,
      h1, h2, h3a, h4, h5, h6]
  · intro env d gid g tg h0 h0v h1 h2 h3 h4 h5 h6
    have hv : d.vpc_id ≠ none := Option.isSome_iff_ne_none.mp h0v
    simp [vpnGatewayCreate, vpnGatewayRead, h0, hv, h1, h2, h3, h4, h5, h6]
  · intro env d eid o tg bg nm h1 h2 h3 h4 h5 h6 h7 h8 h9
    cases bg <;>
      simp [eipCreate, eipRead, h1, h2, h3, h4, h5, h6, h7, h8, h9]
  · intro env d obj c h1 h2 h3
    simp [tsfApplicationConfigCreate, tsfApplicationConfigRead, h1, h2, h3]

/-- C3 witness: the amended statement instantiated at concrete successful
environments for the four resource types. -/
theorem c3_create_order_witness :
    (cfsSnapshotCreate
      ⟨.ok "snap-1", none, none,
        ⟨.ok (some ⟨some "cfs-1", some "nm", "available"⟩), .ok []⟩⟩
      { id := "", file_system_id := none, snapshot_name := none,
        tags := some [("k", "v")] }).calls =
      [.createCfsSnapshot, .describeCfsSnapshot, .modifyTags,
        .describeCfsSnapshot, .describeResourceTags] ∧
    (vpnGatewayCreate
      ⟨.ok (some "vpngw-1"), none, none,
        ⟨.ok (some ⟨"n", "1.2.3.4", 5, "IPSEC", "t0", "AVAILABLE",
          "NOTIFY_AND_AUTO_RENEW", "POSTPAID_BY_HOUR", "0000-00-00 00:00:00",
          false, "", "NORMAL", "z", "", 0⟩), .ok []⟩⟩
      { id := "", name := "n", vpc_id := some "vpc-1", bandwidth := 5,
        public_ip_address := none, type := none, state := none,
        prepaid_renew_flag := "NOTIFY_AND_AUTO_RENEW", prepaid_period := 1,
        charge_type := "POSTPAID_BY_HOUR", cdc_id := none,
        max_connection := none, expired_time := none,
        is_address_blocked := none, new_purchase_plan := none,
        restrict_state := none, zone := "z", tags := [("k", "v")],
        create_time := none }).state.id = "vpngw-1" ∧
    (eipCreate
      ⟨.ok "eip-1", none, none, .ok (),
        ⟨.ok (some ⟨"n", "EIP", "1.2.3.4", "UNBIND", "TRAFFIC_POSTPAID_BY_HOUR"⟩),
          .ok [], .ok none⟩⟩
      { id := "", name := some "n", type := some "EIP", anycast_zone := none,
        applicable_for_clb := none, internet_service_provider := none,
        internet_charge_type := none, internet_max_bandwidth_out := none,
        tags := [("k", "v")], bandwidth_package_id := none, public_ip := none,
        status := none }).err = none ∧
    (tsfApplicationConfigCreate
      ⟨.ok true, .ok ⟨"dcfg-1", some "cn", some "1.0", some "v",
        some "app-1", some "d", some "Y"⟩,
        ⟨.ok (some ⟨"dcfg-1", some "cn", some "1.0", some "v", some "app-1",
          some "d", some "Y"⟩)⟩⟩
      { id := "", config_name := some "cn", config_version := some "1.0",
        config_value := some "v", application_id := some "app-1",
        config_version_desc := some "d", config_type := some "Y",
        encode_with_base64 := some false,
        program_id_list := none }).calls =
      [.createConfig, .describeConfig, .describeConfig] := by
  refine ⟨(c3_create_order.1 _ _ "snap-1" ⟨some "cfs-1", some "nm", "available"⟩
      [] rfl rfl (by decide) rfl rfl rfl).1,
    (c3_create_order.2.1 _ _ "vpngw-1" _ [] rfl (by decide) rfl rfl
      (by decide) rfl rfl rfl).2.1,
    (c3_create_order.2.2.1 _ _ "eip-1" _ [] none "n" rfl (by decide) rfl rfl
      rfl rfl rfl rfl rfl).2.2,
    (c3_create_order.2.2.2 _ _ _ _ rfl rfl rfl).1⟩

/-! ## C4 -/

/-- C4: the claim "a successful Create followed by Read sets every
schema-declared attribute from the remote object" is false for the TSF
application config: at this concrete input the Create (which ends in Read)
succeeds, yet the schema attributes `encode_with_base64` and
`program_id_list` are left unset, because their writes are absent from the
Read. -/
theorem c4_read_populates_counterexample :
    (tsfApplicationConfigCreate
      ⟨.ok true, .ok ⟨"dcfg-2", some "cn", some "1.0", some "v",
        some "app-1", some "d", some "Y"⟩,
        ⟨.ok (some ⟨"dcfg-2", some "cn", some "1.0", some "v", some "app-1",
          some "d", some "Y"⟩)⟩⟩
      { id := "", config_name := some "cn", config_version := some "1.0",
        config_value := some "v", application_id := some "app-1",
        config_version_desc := some "d", config_type := some "Y",
        encode_with_base64 := none, program_id_list := none }).err = none ∧
    (tsfApplicationConfigCreate
      ⟨.ok true, .ok ⟨"dcfg-2", some "cn", some "1.0", some "v",
        some "app-1", some "d", some "Y"⟩,
        ⟨.ok (some ⟨"dcfg-2", some "cn", some "1.0", some "v", some "app-1",
          some "d", some "Y"⟩)⟩⟩
      { id := "", config_name := some "cn", config_version := some "1.0",
        config_value := some "v", application_id := some "app-1",
        config_version_desc := some "d", config_type := some "Y",
        encode_with_base64 := none,
        program_id_list := none }).state.encode_with_base64 = none ∧
    (tsfApplicationConfigCreate
      ⟨.ok true, .ok ⟨"dcfg-2", some "cn", some "1.0", some "v",
        some "app-1", some "d", some "Y"⟩,
        ⟨.ok (some ⟨"dcfg-2", some "cn", some "1.0", some "v", some "app-1",
          some "d", some "Y"⟩)⟩⟩
      { id := "", config_name := some "cn", config_version := some "1.0",
        config_value := some "v", application_id := some "app-1",
        config_version_desc := some "d", config_type := some "Y",
        encode_with_base64 := none,
        program_id_list := none }).state.program_id_list = none := by
  decide

/-- C4 (amended): a successful Read populates exactly the attributes its
code writes: every schema attribute for the MariaDB security groups and the
VPN gateway; for the CFS snapshot every attribute whose remote field is
non-nil, plus tags; for the EIP the attributes `name`, `type`, `public_ip`,
`status`, `internet_charge_type` and `tags`, while `anycast_zone`,
`applicable_for_clb`, `internet_service_provider` and
`internet_max_bandwidth_out` are never written; for the TSF application
config the six string attributes present in the remote object, while
`encode_with_base64` and `program_id_list` are never written. -/
theorem c4_read_populates :
    (∀ (env : CfsSnapshotReadEnv) (d : CfsSnapshotState)
        (snap : CfsSnapshotObj) (tg : List (String × String)),
      env.describe = .ok (some snap) → snap.fileSystemId.isSome →
      snap.snapshotName.isSome → env.describeTags = .ok tg →
        (cfsSnapshotRead env d).err = none ∧
        (cfsSnapshotRead env d).state.file_system_id.isSome ∧
        (cfsSnapshotRead env d).state.snapshot_name.isSome ∧
        (cfsSnapshotRead env d).state.tags.isSome) ∧
    (∀ (env : MariadbSecurityGroupsReadEnv) (d : MariadbSecurityGroupsState),
      (splitFiledSp d.id).length = 3 → env.describe = .ok (some ()) →
        (mariadbSecurityGroupsRead env d).err = none ∧
        (mariadbSecurityGroupsRead env d).state.instance_id.isSome ∧
        (mariadbSecurityGroupsRead env d).state.security_group_id.isSome ∧
        (mariadbSecurityGroupsRead env d).state.product.isSome) ∧
    (∀ (env : VpnGatewayReadEnv) (d : VpnGatewayState) (g : VpnGatewayObj)
        (tg : List (String × String)),
      env.describe = .ok (some g) → env.describeTags = .ok tg →
        (vpnGatewayRead env d).err = none ∧
        (vpnGatewayRead env d).state.public_ip_address.isSome ∧
        (vpnGatewayRead env d).state.type.isSome ∧
        (vpnGatewayRead env d).state.state.isSome ∧
        (vpnGatewayRead env d).state.cdc_id.isSome ∧
        (vpnGatewayRead env d).state.max_connection.isSome ∧
        (vpnGatewayRead env d).state.expired_time.isSome ∧
        (vpnGatewayRead env d).state.is_address_blocked.isSome ∧
        (vpnGatewayRead env d).state.new_purchase_plan.isSome ∧
        (vpnGatewayRead env d).state.restrict_state.isSome ∧
        (vpnGatewayRead env d).state.create_time.isSome) ∧
    (∀ (env : EipReadEnv) (d : EipState) (o : EipObj)
        (tg : List (String × String)) (bg : Option String),
      env.describe = .ok (some o) → env.describeTags = .ok tg →
      env.describeBgp = .ok bg →
        (eipRead env d).err = none ∧
        (eipRead env d).state.name.isSome ∧
        (eipRead env d).state.type.isSome ∧
        (eipRead env d).state.public_ip.isSome ∧
        (eipRead env d).state.status.isSome ∧
        (eipRead env d).state.internet_charge_type.isSome ∧
        (eipRead env d).state.anycast_zone = d.anycast_zone ∧
        (eipRead env d).state.applicable_for_clb = d.applicable_for_clb ∧
        (eipRead env d).state.internet_service_provider =
          d.internet_service_provider ∧
        (eipRead env d).state.internet_max_bandwidth_out =
          d.internet_max_bandwidth_out) ∧
    (∀ (env : TsfApplicationConfigReadEnv) (d : TsfApplicationConfigState)
        (c : TsfConfigObj),
      env.describe = .ok (some c) → c.configName.isSome →
      c.configVersion.isSome → c.configValue.isSome →
      c.applicationId.isSome → c.configVersionDesc.isSome →
      c.configType.isSome →
        (tsfApplicationConfigRead env d).err = none ∧
        (tsfApplicationConfigRead env d).state.config_name.isSome ∧
        (tsfApplicationConfigRead env d).state.config_version.isSome ∧
        (tsfApplicationConfigRead env d).state.config_value.isSome ∧
        (tsfApplicationConfigRead env d).state.application_id.isSome ∧
        (tsfApplicationConfigRead env d).state.config_version_desc.isSome ∧
        (tsfApplicationConfigRead env d).state.config_type.isSome ∧
        (tsfApplicationConfigRead env d).state.encode_with_base64 =
          d.encode_with_base64 ∧
        (tsfApplicationConfigRead env d).state.program_id_list =
          d.program_id_list) := by
  refine ⟨?_, ?_, ?_, ?_, ?_⟩
  · intro env d snap tg h1 h2 h3 h4
    obtain ⟨fs, hfs⟩ := Option.isSome_iff_exists.mp h2
    obtain ⟨sn, hsn⟩ := Option.isSome_iff_exists.mp h3
    simp [cfsSnapshotRead, setIfSome, h1, h4, hfs, hsn]
  · intro env d hlen h
    simp [mariadbSecurityGroupsRead, hlen, h]
  · intro env d g tg h1 h2
    simp [vpnGatewayRead, h1, h2]
  · intro env d o tg bg h1 h2 h3
    cases bg <;> simp [eipRead, h1, h2, h3]
  · intro env d c h1 h2 h3 h4 h5 h6 h7
    obtain ⟨a1, e1⟩ := Option.isSome_iff_exists.mp h2
    obtain ⟨a2, e2⟩ := Option.isSome_iff_exists.mp h3
    obtain ⟨a3, e3⟩ := Option.isSome_iff_exists.mp h4
    obtain ⟨a4, e4⟩ := Option.isSome_iff_exists.mp h5
    obtain ⟨a5, e5⟩ := Option.isSome_iff_exists.mp h6
    obtain ⟨a6, e6⟩ := Option.isSome_iff_exists.mp h7
    simp [tsfApplicationConfigRead, setIfSome, h1, e1, e2, e3, e4, e5, e6]

/-- C4 witness: the amended statement instantiated at concrete present-remote
environments for all five resource types. -/
theorem c4_read_populates_witness :
    (cfsSnapshotRead ⟨.ok (some ⟨some "cfs-1", some "nm", "available"⟩), .ok []⟩
      { id := "snap-1", file_system_id := none, snapshot_name := none,
        tags := none }).state.file_system_id.isSome ∧
    (mariadbSecurityGroupsRead ⟨.ok (some ())⟩
      { id := "a#b#c", instance_id := none, security_group_id := none,
        product := none }).state.product.isSome ∧
    (vpnGatewayRead
      ⟨.ok (some ⟨"n", "1.2.3.4", 5, "IPSEC", "t0", "AVAILABLE",
        "NOTIFY_AND_AUTO_RENEW", "POSTPAID_BY_HOUR", "0000-00-00 00:00:00",
        false, "", "NORMAL", "z", "", 0⟩), .ok []⟩
      { id := "vpngw-1", name := "n", vpc_id := some "vpc-1", bandwidth := 5,
        public_ip_address := none, type := none, state := none,
        prepaid_renew_flag := "NOTIFY_AND_AUTO_RENEW", prepaid_period := 1,
        charge_type := "POSTPAID_BY_HOUR", cdc_id := none,
        max_connection := none, expired_time := none,
        is_address_blocked := none, new_purchase_plan := none,
        restrict_state := none, zone := "z", tags := [],
        create_time := none }).state.state.isSome ∧
    (eipRead
      ⟨.ok (some ⟨"n", "EIP", "1.2.3.4", "UNBIND", "TRAFFIC_POSTPAID_BY_HOUR"⟩),
        .ok [], .ok none⟩
      { id := "eip-1", name := none, type := none, anycast_zone := none,
        applicable_for_clb := none, internet_service_provider := none,
        internet_charge_type := none, internet_max_bandwidth_out := none,
        tags := [], bandwidth_package_id := none, public_ip := none,
        status := none }).state.internet_service_provider = none ∧
    (tsfApplicationConfigRead
      ⟨.ok (some ⟨"dcfg-1", some "cn", some "1.0", some "v", some "app-1",
        some "d", some "Y"⟩)⟩
      { id := "dcfg-1", config_name := none, config_version := none,
        config_value := none, application_id := none,
        config_version_desc := none, config_type := none,
        encode_with_base64 := none,
        program_id_list := none }).state.config_type.isSome := by
  refine ⟨(c4_read_populates.1 _ _ ⟨some "cfs-1", some "nm", "available"⟩ []
      rfl rfl rfl rfl).2.1,
    (c4_read_populates.2.1 _ _ (by decide) rfl).2.2.2,
    (c4_read_populates.2.2.1 _ _ _ [] rfl rfl).2.2.2.1,
    (c4_read_populates.2.2.2.1 _ _
      ⟨"n", "EIP", "1.2.3.4", "UNBIND", "TRAFFIC_POSTPAID_BY_HOUR"⟩ [] none
      rfl rfl rfl).2.2.2.2.2.2.2.2.1,
    (c4_read_populates.2.2.2.2 _ _
      ⟨"dcfg-1", some "cn", some "1.0", some "v", some "app-1", some "d",
        some "Y"⟩ rfl rfl rfl rfl rfl rfl rfl).2.2.2.2.2.2.1⟩

/-! ## C5 -/

/-- C5: the claim "for every resource type, Delete issues the delete call
and then polls the remote object until it is confirmed absent" is false for
the MariaDB security-groups resource: at this concrete input Delete returns
success right after the delete call, its trace contains no describe/poll
call, so the remote object is never confirmed absent. -/
theorem c5_delete_polls_counterexample :
    (mariadbSecurityGroupsDelete ⟨.ok ()⟩
      { id := "a#b#c", instance_id := some "a", security_group_id := some "b",
        product := some "c" }).err = none ∧
    (mariadbSecurityGroupsDelete ⟨.ok ()⟩
      { id := "a#b#c", instance_id := some "a", security_group_id := some "b",
        product := some "c" }).calls = [.deleteMariadbSecurityGroups] := by
  decide

/-- C5 (amended): the CFS snapshot and EIP Deletes poll after the delete
call and succeed exactly when the final describe observes the object absent;
the VPN gateway Delete succeeds only when the post-delete poll ends with the
gateway gone or a not-found error; the MariaDB security-groups and TSF
application-config Deletes return success immediately after the delete call,
with no poll in their traces. -/
theorem c5_delete_confirms_absence :
    (∀ (env : CfsSnapshotDeleteEnv) (d : CfsSnapshotState),
      env.delete = .ok () →
        ((cfsSnapshotDelete env d).err = none ↔
          env.finalDescribe = .ok none)) ∧
    (∀ (env : EipDeleteEnv) (d : EipState),
      env.unattach = .ok () → env.delete = .ok () →
        ((eipDelete env d).err = none ↔ env.finalDescribe = .ok none)) ∧
    (∀ (env : VpnGatewayDeleteEnv) (d : VpnGatewayState),
      (vpnGatewayDelete env d).err = none →
        env.pollFinal = .notFoundErr ∨ env.pollFinal = .absent) ∧
    (∀ (env : MariadbSecurityGroupsDeleteEnv)
        (d : MariadbSecurityGroupsState),
      (splitFiledSp d.id).length = 3 → env.delete = .ok () →
        (mariadbSecurityGroupsDelete env d).err = none ∧
        (mariadbSecurityGroupsDelete env d).calls =
          [.deleteMariadbSecurityGroups]) ∧
    (∀ (env : TsfApplicationConfigDeleteEnv)
        (d : TsfApplicationConfigState),
      env.delete = .ok () →
        (tsfApplicationConfigDelete env d).err = none ∧
        (tsfApplicationConfigDelete env d).calls = [.deleteConfig]) := by
  refine ⟨?_, ?_, ?_, ?_, ?_⟩
  · intro env d h
    rcases hfd : env.finalDescribe with e | o
    · simp [cfsSnapshotDelete, h, hfd]
    · rcases o with _ | obj <;> simp [cfsSnapshotDelete, h, hfd]
  · intro env d h1 h2
    rcases hfd : env.finalDescribe with e | o
    · simp [eipDelete, h1, h2, hfd]
    · rcases o with _ | obj <;> simp [eipDelete, h1, h2, hfd]
  · intro env d h
    obtain ⟨dg, dc, dl, pf⟩ := env
    unfold vpnGatewayDelete at h
    simp only at h ⊢
    repeat' split at h
    all_goals simp_all
  · intro env d hlen h
    simp [mariadbSecurityGroupsDelete, hlen, h]
  · intro env d h
    simp [tsfApplicationConfigDelete, h]

/-- C5 witness: the amended statement instantiated at concrete environments
for the five resource types. -/
theorem c5_delete_confirms_absence_witness :
    (cfsSnapshotDelete ⟨.ok (), .ok none⟩
      { id := "snap-1", file_system_id := none, snapshot_name := none,
        tags := none }).err = none ∧
    (eipDelete ⟨.ok (), .ok (), .ok none⟩
      { id := "eip-1", name := none, type := none, anycast_zone := none,
        applicable_for_clb := none, internet_service_provider := none,
        internet_charge_type := none, internet_max_bandwidth_out := none,
        tags := [], bandwidth_package_id := none, public_ip := none,
        status := none }).err = none ∧
    ((⟨.ok none, .ok 0, .ok (), .absent⟩ :
        VpnGatewayDeleteEnv).pollFinal = .notFoundErr ∨
      (⟨.ok none, .ok 0, .ok (), .absent⟩ :
        VpnGatewayDeleteEnv).pollFinal = .absent) ∧
    (mariadbSecurityGroupsDelete ⟨.ok ()⟩
      { id := "x#y#z", instance_id := some "x", security_group_id := some "y",
        product := some "z" }).calls = [.deleteMariadbSecurityGroups] ∧
    (tsfApplicationConfigDelete ⟨.ok ()⟩
      { id := "dcfg-1", config_name := none, config_version := none,
        config_value := none, application_id := none,
        config_version_desc := none, config_type := none,
        encode_with_base64 := none, program_id_list := none }).calls =
      [.deleteConfig] := by
  refine ⟨(c5_delete_confirms_absence.1 _ _ rfl).mpr rfl,
    (c5_delete_confirms_absence.2.1 _ _ rfl rfl).mpr rfl,
    c5_delete_confirms_absence.2.2.1 ⟨.ok none, .ok 0, .ok (), .absent⟩
      { id := "vpngw-1", name := "n", vpc_id := some "vpc-1", bandwidth := 5,
        public_ip_address := none, type := none, state := none,
        prepaid_renew_flag := "NOTIFY_AND_AUTO_RENEW", prepaid_period := 1,
        charge_type := "POSTPAID_BY_HOUR", cdc_id := none,
        max_connection := none, expired_time := none,
        is_address_blocked := none, new_purchase_plan := none,
        restrict_state := none, zone := "z", tags := [],
        create_time := none } (by decide),
    (c5_delete_confirms_absence.2.2.2.1 _ _ (by decide) rfl).2,
    (c5_delete_confirms_absence.2.2.2.2 _ _ rfl).2⟩

/-! ## C6 -/

/-- C6: when Create has allocated the remote resource and stored its
identifier but the post-creation tag assignment fails, Create returns the
tag error while the stored identifier remains the created resource's
identifier — for the CFS snapshot, the VPN gateway and the EIP. -/
theorem c6_create_tag_failure_keeps_id :
    (∀ (env : CfsSnapshotCreateEnv) (d : CfsSnapshotState) (sid e : String),
      env.create = .ok sid → env.wait = none →
      d.getTags.isEmpty = false → env.modifyTags = some e →
        (cfsSnapshotCreate env d).err = some e ∧
        (cfsSnapshotCreate env d).state.id = sid) ∧
    (∀ (env : VpnGatewayCreateEnv) (d : VpnGatewayState) (gid e : String),
      d.type = none → d.vpc_id.isSome →
      env.create = .ok (some gid) → env.poll = none →
      d.tags.isEmpty = false → env.modifyTags = some e →
        (vpnGatewayCreate env d).err = some e ∧
        (vpnGatewayCreate env d).state.id = gid) ∧
    (∀ (env : EipCreateEnv) (d : EipState) (eid e : String),
      env.allocate = .ok eid → d.tags.isEmpty = false →
      env.modifyTags = some e →
        (eipCreate env d).err = some e ∧
        (eipCreate env d).state.id = eid) := by
  refine ⟨?_, ?_, ?_⟩
  · intro env d sid e h1 h2 h3 h4
    have h3a : ¬(d.tags.getD [] = []) := by
      simpa [CfsSnapshotState.getTags, List.isEmpty_iff] using h3
    simp [cfsSnapshotCreate, CfsSnapshotState.getTags, h1, h2, h3a, h4]
  · intro env d gid e h0 h0v h1 h2 h3 h4
    have hv : d.vpc_id ≠ none := Option.isSome_iff_ne_none.mp h0v
    simp [vpnGatewayCreate, h0, hv, h1, h2, h3, h4]
  · intro env d eid e h1 h2 h3
    simp [eipCreate, h1, h2, h3]

/-- C6 witness: the statement instantiated at concrete failing-tag
environments for the three resource types. -/
theorem c6_create_tag_failure_keeps_id_witness :
    (cfsSnapshotCreate ⟨.ok "snap-9", none, some "tag error", ⟨.ok none, .ok []⟩⟩
      { id := "", file_system_id := none, snapshot_name := none,
        tags := some [("k", "v")] }).state.id = "snap-9" ∧
    (vpnGatewayCreate
      ⟨.ok (some "vpngw-9"), none, some "tag error", ⟨.ok none, .ok []⟩⟩
      { id := "", name := "n", vpc_id := some "vpc-1", bandwidth := 5,
        public_ip_address := none, type := none, state := none,
        prepaid_renew_flag := "NOTIFY_AND_AUTO_RENEW", prepaid_period := 1,
        charge_type := "POSTPAID_BY_HOUR", cdc_id := none,
        max_connection := none, expired_time := none,
        is_address_blocked := none, new_purchase_plan := none,
        restrict_state := none, zone := "z", tags := [("k", "v")],
        create_time := none }).state.id = "vpngw-9" ∧
    (eipCreate
      ⟨.ok "eip-9", some "tag error", none, .ok (),
        ⟨.ok none, .ok [], .ok none⟩⟩
      { id := "", name := none, type := none, anycast_zone := none,
        applicable_for_clb := none, internet_service_provider := none,
        internet_charge_type := none, internet_max_bandwidth_out := none,
        tags := [("k", "v")], bandwidth_package_id := none,
        public_ip := none, status := none }).err = some "tag error" := by
  refine ⟨(c6_create_tag_failure_keeps_id.1 _ _ "snap-9" "tag error" rfl rfl
      (by decide) rfl).2,
    (c6_create_tag_failure_keeps_id.2.1 _ _ "vpngw-9" "tag error" rfl
      (by decide) rfl rfl (by decide) rfl).2,
    (c6_create_tag_failure_keeps_id.2.2 _ _ "eip-9" "tag error" rfl
      (by decide) rfl).1⟩

/-! ## C7 -/

/-- C7: the MariaDB security-groups Create stores the composite identifier
`instanceId#securityGroupId#product`, and Read, Update and Delete each fail
with an "id is broken" error, issuing no vendor API call, whenever the
identifier does not split into exactly three `#`-separated parts. -/
theorem c7_mariadb_composite_id :
    (∀ (env : MariadbSecurityGroupsCreateEnv)
        (d : MariadbSecurityGroupsState),
      env.associate = .ok () → env.read.describe = .ok (some ()) →
        (mariadbSecurityGroupsCreate env d).state.id =
          d.instance_id.getD "" ++ FILED_SP ++
            d.security_group_id.getD "" ++ FILED_SP ++ d.product.getD "") ∧
    (∀ (env : MariadbSecurityGroupsReadEnv) (d : MariadbSecurityGroupsState),
      (splitFiledSp d.id).length ≠ 3 →
        (mariadbSecurityGroupsRead env d).err =
          some ("id is broken," ++ d.id) ∧
        (mariadbSecurityGroupsRead env d).calls = []) ∧
    (∀ (env : MariadbSecurityGroupsUpdateEnv)
        (ch : MariadbSecurityGroupsChanges) (d : MariadbSecurityGroupsState),
      (splitFiledSp d.id).length ≠ 3 →
        (mariadbSecurityGroupsUpdate env ch d).err =
          some ("id is broken," ++ d.id) ∧
        (mariadbSecurityGroupsUpdate env ch d).calls = []) ∧
    (∀ (env : MariadbSecurityGroupsDeleteEnv)
        (d : MariadbSecurityGroupsState),
      (splitFiledSp d.id).length ≠ 3 →
        (mariadbSecurityGroupsDelete env d).err =
          some ("id is broken," ++ d.id) ∧
        (mariadbSecurityGroupsDelete env d).calls = []) := by
  refine ⟨?_, ?_, ?_, ?_⟩
  · intro env d h1 h2
    by_cases hl : (splitFiledSp (d.instance_id.getD "" ++ FILED_SP ++
        d.security_group_id.getD "" ++ FILED_SP ++
        d.product.getD "")).length = 3 <;>
      simp [mariadbSecurityGroupsCreate, mariadbSecurityGroupsRead,
        h1, h2, hl]
  · intro env d h
    simp [mariadbSecurityGroupsRead, h]
  · intro env d ch h
    simp [mariadbSecurityGroupsUpdate, h]
  · intro env d h
    simp [mariadbSecurityGroupsDelete, h]

/-- C7 witness: the statement instantiated at a concrete Create (storing
`tdsql-1#sg-1#mariadb`) and at the broken identifier `abc` for Read, Update
and Delete. -/
theorem c7_mariadb_composite_id_witness :
    (mariadbSecurityGroupsCreate ⟨.ok (), ⟨.ok (some ())⟩⟩
      { id := "", instance_id := some "tdsql-1",
        security_group_id := some "sg-1",
        product := some "mariadb" }).state.id = "tdsql-1#sg-1#mariadb" ∧
    (mariadbSecurityGroupsRead ⟨.ok (some ())⟩
      { id := "abc", instance_id := none, security_group_id := none,
        product := none }).err = some "id is broken,abc" ∧
    (mariadbSecurityGroupsUpdate ⟨.ok (), ⟨.ok (some ())⟩⟩
      { instance_id := false, security_group_id := false, product := false }
      { id := "abc", instance_id := none, security_group_id := none,
        product := none }).calls = [] ∧
    (mariadbSecurityGroupsDelete ⟨.ok ()⟩
      { id := "abc", instance_id := none, security_group_id := none,
        product := none }).err = some "id is broken,abc" := by
  refine ⟨?_, (c7_mariadb_composite_id.2.1 _ _ (by decide)).1,
    (c7_mariadb_composite_id.2.2.1 _ _ _ (by decide)).2,
    (c7_mariadb_composite_id.2.2.2 _ _ (by decide)).1⟩
  have h := c7_mariadb_composite_id.1 ⟨.ok (), ⟨.ok (some ())⟩⟩
    { id := "", instance_id := some "tdsql-1",
      security_group_id := some "sg-1", product := some "mariadb" }
    rfl rfl
  simpa using h

/-! ## C8 -/

/-- C8: for every embedded resource type, after a successful Read an Update
with no changed attributes (run against the same remote environment)
succeeds and leaves every stored attribute identical — the no-op Updates of
the CFS snapshot, VPN gateway, EIP and TSF application config skip their
modify calls and re-Read, and the no-op Update of the MariaDB security
groups re-issues its modify call with the unchanged values and re-Reads,
none altering the state. -/
theorem c8_noop_update_roundtrip :
    (∀ (uenv : CfsSnapshotUpdateEnv) (renv : CfsSnapshotReadEnv)
        (d : CfsSnapshotState),
      uenv.read = renv → (cfsSnapshotRead renv d).err = none →
        (cfsSnapshotUpdate uenv ⟨false, false⟩
          (cfsSnapshotRead renv d).state).err = none ∧
        (cfsSnapshotUpdate uenv ⟨false, false⟩
          (cfsSnapshotRead renv d).state).state =
          (cfsSnapshotRead renv d).state) ∧
    (∀ (uenv : MariadbSecurityGroupsUpdateEnv)
        (renv : MariadbSecurityGroupsReadEnv) (d : MariadbSecurityGroupsState),
      uenv.read = renv → uenv.modify = .ok () →
      (mariadbSecurityGroupsRead renv d).err = none →
        (mariadbSecurityGroupsUpdate uenv ⟨false, false, false⟩
          (mariadbSecurityGroupsRead renv d).state).err = none ∧
        (mariadbSecurityGroupsUpdate uenv ⟨false, false, false⟩
          (mariadbSecurityGroupsRead renv d).state).state =
          (mariadbSecurityGroupsRead renv d).state) ∧
    (∀ (uenv : VpnGatewayUpdateEnv) (renv : VpnGatewayReadEnv)
        (d : VpnGatewayState) (oct : String),
      uenv.read = renv → (vpnGatewayRead renv d).err = none →
        (vpnGatewayUpdate uenv
          ⟨false, false, false, false, false, false, false, false, false, oct⟩
          (vpnGatewayRead renv d).state).err = none ∧
        (vpnGatewayUpdate uenv
          ⟨false, false, false, false, false, false, false, false, false, oct⟩
          (vpnGatewayRead renv d).state).state =
          (vpnGatewayRead renv d).state) ∧
    (∀ (uenv : EipUpdateEnv) (renv : EipReadEnv) (d : EipState),
      uenv.read = renv → (eipRead renv d).err = none →
        (eipUpdate uenv ⟨false, false, false, false⟩
          (eipRead renv d).state).err = none ∧
        (eipUpdate uenv ⟨false, false, false, false⟩
          (eipRead renv d).state).state = (eipRead renv d).state) ∧
    (∀ (renv : TsfApplicationConfigReadEnv) (d : TsfApplicationConfigState),
      (tsfApplicationConfigRead renv d).err = none →
        (tsfApplicationConfigUpdate renv
          ⟨false, false, false, false, false, false, false, false⟩
          (tsfApplicationConfigRead renv d).state).err = none ∧
        (tsfApplicationConfigUpdate renv
          ⟨false, false, false, false, false, false, false, false⟩
          (tsfApplicationConfigRead renv d).state).state =
          (tsfApplicationConfigRead renv d).state) := by
  refine ⟨?_, ?_, ?_, ?_, ?_⟩
  · intro uenv renv d hu h
    subst hu
    rcases hds : uenv.read.describe with e | o
    · simp [cfsSnapshotRead, hds] at h
    · rcases o with _ | snap
      · simp [cfsSnapshotUpdate, cfsSnapshotRead, hds]
      · rcases hdt : uenv.read.describeTags with e | tg
        · simp [cfsSnapshotRead, hds, hdt] at h
        · simp [cfsSnapshotUpdate, cfsSnapshotRead, hds, hdt, setIfSome_idem]
  · intro uenv renv d hu hm h
    subst hu
    by_cases hl : (splitFiledSp d.id).length = 3
    · rcases hds : uenv.read.describe with e | o
      · simp [mariadbSecurityGroupsRead, hl, hds] at h
      · rcases o with _ | u
        · simp [mariadbSecurityGroupsRead, hl, hds] at h
        · simp [mariadbSecurityGroupsUpdate, mariadbSecurityGroupsRead,
            hl, hds, hm]
    · simp [mariadbSecurityGroupsRead, hl] at h
  · intro uenv renv d oct hu h
    subst hu
    rcases hds : uenv.read.describe with e | o
    · simp [vpnGatewayRead, hds] at h
    · rcases o with _ | g
      · simp [vpnGatewayUpdate, vpnGatewayRead, hds]
      · rcases hdt : uenv.read.describeTags with e | tg
        · simp [vpnGatewayRead, hds, hdt] at h
        · simp [vpnGatewayUpdate, vpnGatewayRead, hds, hdt]
  · intro uenv renv d hu h
    subst hu
    rcases hds : uenv.read.describe with e | o
    · simp [eipRead, hds] at h
    · rcases o with _ | obj
      · simp [eipUpdate, eipRead, hds]
      · rcases hdt : uenv.read.describeTags with e | tg
        · simp [eipRead, hds, hdt] at h
        · rcases hbg : uenv.read.describeBgp with e | bg
          · simp [eipRead, hds, hdt, hbg] at h
          · rcases bg with _ | bpid <;>
              simp [eipUpdate, eipRead, hds, hdt, hbg]
  · intro renv d h
    rcases hds : renv.describe with e | o
    · simp [tsfApplicationConfigRead, hds] at h
    · rcases o with _ | c
      · simp [tsfApplicationConfigUpdate, tsfApplicationConfigRead, hds]
      · simp [tsfApplicationConfigUpdate, tsfApplicationConfigRead, hds,
          setIfSome_idem]

/-- C8 witness: the statement instantiated at concrete environments for the
five resource types. -/
theorem c8_noop_update_roundtrip_witness :
    (cfsSnapshotUpdate
      ⟨.ok (), none, ⟨.ok (some ⟨some "cfs-1", some "nm", "available"⟩), .ok []⟩⟩
      ⟨false, false⟩
      (cfsSnapshotRead
        ⟨.ok (some ⟨some "cfs-1", some "nm", "available"⟩), .ok []⟩
        { id := "snap-1", file_system_id := none, snapshot_name := none,
          tags := none }).state).state =
      (cfsSnapshotRead
        ⟨.ok (some ⟨some "cfs-1", some "nm", "available"⟩), .ok []⟩
        { id := "snap-1", file_system_id := none, snapshot_name := none,
          tags := none }).state ∧
    (mariadbSecurityGroupsUpdate ⟨.ok (), ⟨.ok (some ())⟩⟩
      ⟨false, false, false⟩
      (mariadbSecurityGroupsRead ⟨.ok (some ())⟩
        { id := "a#b#c", instance_id := none, security_group_id := none,
          product := none }).state).state =
      (mariadbSecurityGroupsRead ⟨.ok (some ())⟩
        { id := "a#b#c", instance_id := none, security_group_id := none,
          product := none }).state ∧
    (vpnGatewayUpdate
      ⟨.ok (), .ok (), .ok (), none,
        ⟨.ok (some ⟨"n", "1.2.3.4", 5, "IPSEC", "t0", "AVAILABLE",
          "NOTIFY_AND_AUTO_RENEW", "POSTPAID_BY_HOUR", "0000-00-00 00:00:00",
          false, "", "NORMAL", "z", "", 0⟩), .ok []⟩⟩
      ⟨false, false, false, false, false, false, false, false, false,
        "POSTPAID_BY_HOUR"⟩
      (vpnGatewayRead
        ⟨.ok (some ⟨"n", "1.2.3.4", 5, "IPSEC", "t0", "AVAILABLE",
          "NOTIFY_AND_AUTO_RENEW", "POSTPAID_BY_HOUR", "0000-00-00 00:00:00",
          false, "", "NORMAL", "z", "", 0⟩), .ok []⟩
        { id := "vpngw-1", name := "n", vpc_id := some "vpc-1", bandwidth := 5,
          public_ip_address := none, type := none, state := none,
          prepaid_renew_flag := "NOTIFY_AND_AUTO_RENEW", prepaid_period := 1,
          charge_type := "POSTPAID_BY_HOUR", cdc_id := none,
          max_connection := none, expired_time := none,
          is_address_blocked := none, new_purchase_plan := none,
          restrict_state := none, zone := "z", tags := [],
          create_time := none }).state).state =
      (vpnGatewayRead
        ⟨.ok (some ⟨"n", "1.2.3.4", 5, "IPSEC", "t0", "AVAILABLE",
          "NOTIFY_AND_AUTO_RENEW", "POSTPAID_BY_HOUR", "0000-00-00 00:00:00",
          false, "", "NORMAL", "z", "", 0⟩), .ok []⟩
        { id := "vpngw-1", name := "n", vpc_id := some "vpc-1", bandwidth := 5,
          public_ip_address := none, type := none, state := none,
          prepaid_renew_flag := "NOTIFY_AND_AUTO_RENEW", prepaid_period := 1,
          charge_type := "POSTPAID_BY_HOUR", cdc_id := none,
          max_connection := none, expired_time := none,
          is_address_blocked := none, new_purchase_plan := none,
          restrict_state := none, zone := "z", tags := [],
          create_time := none }).state ∧
    (eipUpdate
      ⟨.ok (), .ok (), none,
        ⟨.ok (some ⟨"n", "EIP", "1.2.3.4", "UNBIND", "TRAFFIC_POSTPAID_BY_HOUR"⟩),
          .ok [], .ok none⟩⟩
      ⟨false, false, false, false⟩
      (eipRead
        ⟨.ok (some ⟨"n", "EIP", "1.2.3.4", "UNBIND", "TRAFFIC_POSTPAID_BY_HOUR"⟩),
          .ok [], .ok none⟩
        { id := "eip-1", name := none, type := none, anycast_zone := none,
          applicable_for_clb := none, internet_service_provider := none,
          internet_charge_type := none, internet_max_bandwidth_out := none,
          tags := [], bandwidth_package_id := none, public_ip := none,
          status := none }).state).state =
      (eipRead
        ⟨.ok (some ⟨"n", "EIP", "1.2.3.4", "UNBIND", "TRAFFIC_POSTPAID_BY_HOUR"⟩),
          .ok [], .ok none⟩
        { id := "eip-1", name := none, type := none, anycast_zone := none,
          applicable_for_clb := none, internet_service_provider := none,
          internet_charge_type := none, internet_max_bandwidth_out := none,
          tags := [], bandwidth_package_id := none, public_ip := none,
          status := none }).state ∧
    (tsfApplicationConfigUpdate
      ⟨.ok (some ⟨"dcfg-1", some "cn", some "1.0", some "v", some "app-1",
        some "d", some "Y"⟩)⟩
      ⟨false, false, false, false, false, false, false, false⟩
      (tsfApplicationConfigRead
        ⟨.ok (some ⟨"dcfg-1", some "cn", some "1.0", some "v", some "app-1",
          some "d", some "Y"⟩)⟩
        { id := "dcfg-1", config_name := none, config_version := none,
          config_value := none, application_id := none,
          config_version_desc := none, config_type := none,
          encode_with_base64 := none, program_id_list := none }).state).state =
      (tsfApplicationConfigRead
        ⟨.ok (some ⟨"dcfg-1", some "cn", some "1.0", some "v", some "app-1",
          some "d", some "Y"⟩)⟩
        { id := "dcfg-1", config_name := none, config_version := none,
          config_value := none, application_id := none,
          config_version_desc := none, config_type := none,
          encode_with_base64 := none, program_id_list := none }).state := by
  refine ⟨(c8_noop_update_roundtrip.1
      ⟨.ok (), none, ⟨.ok (some ⟨some "cfs-1", some "nm", "available"⟩), .ok []⟩⟩
      ⟨.ok (some ⟨some "cfs-1", some "nm", "available"⟩), .ok []⟩ _
      rfl rfl).2,
    (c8_noop_update_roundtrip.2.1 ⟨.ok (), ⟨.ok (some ())⟩⟩ ⟨.ok (some ())⟩ _
      rfl rfl (by decide)).2,
    (c8_noop_update_roundtrip.2.2.1
      ⟨.ok (), .ok (), .ok (), none,
        ⟨.ok (some ⟨"n", "1.2.3.4", 5, "IPSEC", "t0", "AVAILABLE",
          "NOTIFY_AND_AUTO_RENEW", "POSTPAID_BY_HOUR", "0000-00-00 00:00:00",
          false, "", "NORMAL", "z", "", 0⟩), .ok []⟩⟩
      ⟨.ok (some ⟨"n", "1.2.3.4", 5, "IPSEC", "t0", "AVAILABLE",
        "NOTIFY_AND_AUTO_RENEW", "POSTPAID_BY_HOUR", "0000-00-00 00:00:00",
        false, "", "NORMAL", "z", "", 0⟩), .ok []⟩ _
      "POSTPAID_BY_HOUR" rfl rfl).2,
    (c8_noop_update_roundtrip.2.2.2.1
      ⟨.ok (), .ok (), none,
        ⟨.ok (some ⟨"n", "EIP", "1.2.3.4", "UNBIND", "TRAFFIC_POSTPAID_BY_HOUR"⟩),
          .ok [], .ok none⟩⟩
      ⟨.ok (some ⟨"n", "EIP", "1.2.3.4", "UNBIND", "TRAFFIC_POSTPAID_BY_HOUR"⟩),
        .ok [], .ok none⟩ _ rfl rfl).2,
    (c8_noop_update_roundtrip.2.2.2.2
      ⟨.ok (some ⟨"dcfg-1", some "cn", some "1.0", some "v", some "app-1",
        some "d", some "Y"⟩)⟩ _ rfl).2⟩

/-! ## C9 -/

/-- C9: the identifier-building loop of the dbbrain
security-audit-log-export-tasks data-source Read is well-defined exactly
when every returned task has a non-nil `AsyncRequestId` — the one field the
loop dereferences without a nil guard — and whenever it is defined the
per-task attribute maps are produced for every task regardless of any other
field being nil. -/
theorem c9_dbbrain_async_request_id (sagId : String)
    (tasks : List SecLogExportTaskInfo) :
    ((buildTaskData sagId tasks).isSome ↔
      ∀ t ∈ tasks, t.asyncRequestId.isSome) ∧
    (∀ p, buildTaskData sagId tasks = some p →
      p.2 = tasks.map buildTaskMap) := by
  induction tasks with
  | nil => simp [buildTaskData]
  | cons t rest ih =>
    rcases har : t.asyncRequestId with _ | rid
    · constructor
      · simp [buildTaskData, har]
      · intro p hp
        simp [buildTaskData, har] at hp
    · rcases hb : buildTaskData sagId rest with _ | q
      · have h1 := ih.1
        rw [hb] at h1
        simp at h1
        constructor
        · simp [buildTaskData, har, hb, h1]
        · intro p hp
          simp [buildTaskData, har, hb] at hp
      · have h1 := ih.1
        rw [hb] at h1
        simp at h1
        have h2 := ih.2 q hb
        constructor
        · simp only [buildTaskData, har, hb]
          simp [List.forall_mem_cons, har]
          exact h1
        · intro p hp
          simp [buildTaskData, har, hb] at hp
          rw [← hp]
          simp [h2]

/-- C9 witness: the statement instantiated at a concrete task list — defined
when the single task carries an `AsyncRequestId`. -/
theorem c9_dbbrain_async_request_id_witness :
    (buildTaskData "group-1"
      [{ asyncRequestId := some 5, startTime := none, endTime := none,
         createTime := none, status := none, progress := none,
         logStartTime := none, logEndTime := none, totalSize := none,
         dangerLevels := none }]).isSome := by
  exact (c9_dbbrain_async_request_id "group-1" _).1.mpr (by decide)

/-! ## C10 -/

/-- C10: the VPN gateway Delete returns an error without issuing
`DeleteVpnGateway` whenever the described gateway is PREPAID with a non-zero
expiry lying in the future, or is of CCN type and attached to a network
instance, or the associated-connections query reports any remaining VPN
tunnel. -/
theorem c10_vpn_delete_guards (env : VpnGatewayDeleteEnv)
    (d : VpnGatewayState) (gw : VpnGwDeleteInfo)
    (hgw : env.describeGw = .ok (some gw)) :
    (∀ et, gw.expiredTime = some et →
      gw.chargeType = VPN_CHARGE_TYPE_PREPAID →
      et ≠ "0000-00-00 00:00:00" → gw.untilPositive = some true →
      (vpnGatewayDelete env d).err.isSome ∧
      ApiCall.deleteVpnGateway ∉ (vpnGatewayDelete env d).calls) ∧
    (gw.type = GATE_WAY_TYPE_CCN → gw.networkInstanceId ≠ "" →
      (vpnGatewayDelete env d).err.isSome ∧
      ApiCall.deleteVpnGateway ∉ (vpnGatewayDelete env d).calls) ∧
    (∀ n, env.describeConnections = .ok n → n ≠ 0 →
      (vpnGatewayDelete env d).err.isSome ∧
      ApiCall.deleteVpnGateway ∉ (vpnGatewayDelete env d).calls) := by
  refine ⟨?_, ?_, ?_⟩
  · intro et het hct hne hup
    simp [vpnGatewayDelete, vpnDeleteGateCheck, hgw, het, hct, hne, hup]
  · intro hty hni
    have hgate : (vpnDeleteGateCheck gw).isSome := by
      unfold vpnDeleteGateCheck
      rcases hexp : gw.expiredTime with _ | et
      · simp [hty, hni]
      · by_cases hct : gw.chargeType = VPN_CHARGE_TYPE_PREPAID
        · by_cases hz : et = "0000-00-00 00:00:00"
          · simp [hct, hz, hty, hni]
          · rcases hup : gw.untilPositive with _ | b
            · simp [hct, hz, hup]
            · cases b <;> simp [hct, hz, hup, hty, hni]
        · simp [hct, hty, hni]
    rcases hg : vpnDeleteGateCheck gw with _ | e
    · rw [hg] at hgate
      simp at hgate
    · simp [vpnGatewayDelete, hgw, hg]
  · intro n hdc hn
    rcases hg : vpnDeleteGateCheck gw with _ | e
    · simp [vpnGatewayDelete, hgw, hg, hdc, hn]
    · simp [vpnGatewayDelete, hgw, hg]

/-- C10 witness: the statement instantiated at three concrete environments:
an unexpired PREPAID gateway, an attached CCN gateway, and a gateway with a
remaining tunnel; in each case the delete call is absent from the trace. -/
theorem c10_vpn_delete_guards_witness :
    (ApiCall.deleteVpnGateway ∉
      (vpnGatewayDelete
        ⟨.ok (some ⟨some "2999-01-01 00:00:00", "PREPAID", some true,
          "IPSEC", ""⟩), .ok 0, .ok (), .absent⟩
        { id := "vpngw-1", name := "n", vpc_id := some "vpc-1",
          bandwidth := 5, public_ip_address := none, type := none,
          state := none, prepaid_renew_flag := "NOTIFY_AND_AUTO_RENEW",
          prepaid_period := 1, charge_type := "PREPAID", cdc_id := none,
          max_connection := none, expired_time := none,
          is_address_blocked := none, new_purchase_plan := none,
          restrict_state := none, zone := "z", tags := [],
          create_time := none }).calls) ∧
    (ApiCall.deleteVpnGateway ∉
      (vpnGatewayDelete
        ⟨.ok (some ⟨none, "POSTPAID_BY_HOUR", none, "CCN", "ccn-1"⟩),
          .ok 0, .ok (), .absent⟩
        { id := "vpngw-2", name := "n", vpc_id := none, bandwidth := 5,
          public_ip_address := none, type := some "CCN", state := none,
          prepaid_renew_flag := "NOTIFY_AND_AUTO_RENEW", prepaid_period := 1,
          charge_type := "POSTPAID_BY_HOUR", cdc_id := none,
          max_connection := none, expired_time := none,
          is_address_blocked := none, new_purchase_plan := none,
          restrict_state := none, zone := "z", tags := [],
          create_time := none }).calls) ∧
    (ApiCall.deleteVpnGateway ∉
      (vpnGatewayDelete
        ⟨.ok (some ⟨none, "POSTPAID_BY_HOUR", none, "IPSEC", ""⟩),
          .ok 2, .ok (), .absent⟩
        { id := "vpngw-3", name := "n", vpc_id := some "vpc-1",
          bandwidth := 5, public_ip_address := none, type := none,
          state := none, prepaid_renew_flag := "NOTIFY_AND_AUTO_RENEW",
          prepaid_period := 1, charge_type := "POSTPAID_BY_HOUR",
          cdc_id := none, max_connection := none, expired_time := none,
          is_address_blocked := none, new_purchase_plan := none,
          restrict_state := none, zone := "z", tags := [],
          create_time := none }).calls) := by
  refine ⟨((c10_vpn_delete_guards _ _ _ rfl).1 "2999-01-01 00:00:00" rfl rfl
      (by decide) rfl).2,
    ((c10_vpn_delete_guards _ _ _ rfl).2.1 rfl (by decide)).2,
    ((c10_vpn_delete_guards _ _ _ rfl).2.2 2 rfl (by decide)).2⟩

end TencentCloudProvider
